import Mathlib

/-!
Verification of core properties of the habit-impact scoring engine.

The engine maps a selection of (habit id, intensity level) pairs to
well-being metrics, per-organ health values, dominant-factor lists and
prioritized recommendations.  The repository contains several prototype
variants of this engine; they are embedded here side by side:

* `V1` — the "REALISTIC HABIT IMPACT SYSTEM" (tiered impact matrix with
  linear / exponential / minimal effect shapes).
* `V2` — the "EXPONENTIAL HEALTH ASSESSMENT SYSTEM" (single exponential
  multiplier per habit, organ vulnerability tables; this is the variant
  the current store wraps).
* `P1` — the "REALISTIC TARGETED HEALTH ASSESSMENT SYSTEM" (per-habit
  per-metric base/curve table; sorts its dominant-factor lists).
* `P3` — an early store prototype whose meter computation samples a
  random stream.
* `Store` — the current `useAtlasStore` state holder wrapping `V2`.

Numbers are modelled as follows: the static tables hold rationals (the
source literals are decimal); levels are rationals (JS numbers validated
at the boundary); all derived arithmetic is over the reals, with
`Real.rpow` for `Math.pow` and `Real.sqrt` for `Math.sqrt`.  Ambient
randomness (`Math.random`) is modelled as an explicit stream `ℕ → ℝ`
passed to the functions whose source may consult it.
-/

/-- `Math.max lo (Math.min hi x)` — the clamping pattern used throughout. -/
noncomputable def clamp (lo hi x : ℝ) : ℝ := max lo (min hi x)

theorem clamp_le {lo hi x : ℝ} (h : lo ≤ hi) : clamp lo hi x ≤ hi :=
  max_le h (min_le_left _ _)

theorem le_clamp (lo hi x : ℝ) : lo ≤ clamp lo hi x := le_max_left _ _

/-- Association-list lookup with string keys (JS object property access). -/
def lookupA {α : Type} : List (String × α) → String → Option α
  | [], _ => none
  | (k, v) :: rest, h => if k = h then some v else lookupA rest h

/-- A habit selection: insertion-ordered (habit id, level) pairs, the shape
`Object.entries` yields for a `HabitLevels` object. -/
abbrev Selection := List (String × ℚ)

/-- `habits[habitId]?.level || 0`. -/
def getLevel (sel : Selection) (h : String) : ℚ := (lookupA sel h).getD 0

/-- Habit valence in the catalog (`habit.kind` in `habits.json`). -/
inductive Kind
  | good
  | bad
deriving DecidableEq

/-- One catalog entry: display name and valence. -/
structure HabitInfo where
  name : String
  kind : Kind
deriving DecidableEq

def mkHabit (id : String) (k : Kind) : String × HabitInfo := (id, ⟨id, k⟩)

/-- Modelled from the spec: the Habit Catalog (`src/data/habits.json`) is not
under `src/`; per spec sections 2 and 3 it lists every habit's id, display
name, category and valence (beneficial/harmful), keyed by the same ids the
Impact Model uses.  It is modelled as containing exactly the habit ids
referenced by the Impact Model, with the display name equal to the id and
the valence from the spec's beneficial/harmful classification (which agrees
with the sign of the `HABIT_IMPACT_WEIGHTS` table in the source). -/
def habitsData : List (String × HabitInfo) :=
  [ mkHabit "sleep_consistency" .good
  , mkHabit "exercise" .good
  , mkHabit "healthy_diet" .good
  , mkHabit "social_connection" .good
  , mkHabit "meditation" .good
  , mkHabit "hydration" .good
  , mkHabit "reading" .good
  , mkHabit "journaling" .good
  , mkHabit "smoking" .bad
  , mkHabit "drugs" .bad
  , mkHabit "alcohol" .bad
  , mkHabit "chronic_stress" .bad
  , mkHabit "sedentary" .bad
  , mkHabit "processed_diet" .bad
  , mkHabit "social_isolation" .bad
  , mkHabit "pornography" .bad
  , mkHabit "gaming" .bad ]

/-- `habitsData.habits.find(h => h.id === habitId)`. -/
def catalogFind (h : String) : Option HabitInfo := lookupA habitsData h

theorem catalogFind_name : ∀ {h : String} {info : HabitInfo},
    catalogFind h = some info → info.name = h := by
  have key : ∀ (l : List (String × HabitInfo)),
      (∀ p ∈ l, p.2.name = p.1) → ∀ {h : String} {info : HabitInfo},
        lookupA l h = some info → info.name = h := by
    intro l hl
    induction l with
    | nil => intro h info hx; simp [lookupA] at hx
    | cons p rest ih =>
      intro h info hx
      by_cases hk : p.1 = h
      · subst hk
        have : p.2 = info := by
          simpa [lookupA] using hx
        rw [← this]
        exact hl p (List.mem_cons_self _ _)
      · have hx2 : lookupA rest h = some info := by
          cases p with
          | mk k v => simpa [lookupA, hk] using hx
        exact ih (fun q hq => hl q (List.mem_cons_of_mem _ hq)) hx2
  intro h info
  exact key habitsData (by decide)

/-- A dominant-factor record (one entry of `exponentialFactors.positive` /
`.negative`). -/
structure Factor where
  habit : String
  impact : ℝ
  explanation : String

/-- Recommendation priority tier. -/
inductive Priority
  | critical
  | high
  | moderate
deriving DecidableEq

/-- One prioritized recommendation. -/
structure Recommendation where
  priority : Priority
  action : String
  rationale : String
  expectedImpact : String
deriving DecidableEq

/-- The fixed organ identifiers. -/
inductive Organ
  | lungs
  | heart
  | brain
  | liver
  | kidneys
  | gut
  | skin
deriving DecidableEq

namespace V1

/-!
Embedding of the "REALISTIC HABIT IMPACT SYSTEM" file: `HABIT_IMPACT_MATRIX`,
`BASELINE_VALUES`, `calculateExponentialHealth`, `generateRealisticExplanation`
and `generateRealisticRecommendations`.
-/

/-- The six whole-body metrics of the `results` record. -/
inductive Metric
  | generalHealth
  | mentalHealth
  | physicalFitness
  | qualityOfLife
  | happiness
  | lifeExpectancy
deriving DecidableEq

/-- Effect shape tier (`impact.type`). -/
inductive EffectType
  | linear
  | exponential
  | minimal
deriving DecidableEq

/-- One `{ type, multiplier, curve? }` descriptor of the impact matrix. -/
structure Effect where
  etype : EffectType
  multiplier : ℚ
  curve : Option ℚ
deriving DecidableEq

def eLin (m : ℚ) : Effect := ⟨.linear, m, none⟩

def eExp (m c : ℚ) : Effect := ⟨.exponential, m, some c⟩

def eMin (m : ℚ) : Effect := ⟨.minimal, m, none⟩

/-- `HABIT_IMPACT_MATRIX`, rows and entries in source order. -/
def HABIT_IMPACT_MATRIX : List (String × List (Metric × Effect)) :=
  [ ("sleep_consistency",
      [ (.generalHealth, eExp 4.2 2.0), (.mentalHealth, eExp 4.5 2.1)
      , (.qualityOfLife, eLin 2.8), (.physicalFitness, eMin 0.8)
      , (.happiness, eExp 3.8 1.8), (.lifeExpectancy, eExp 3.5 1.9) ])
  , ("exercise",
      [ (.generalHealth, eExp 4.0 1.9), (.physicalFitness, eExp 5.0 2.2)
      , (.mentalHealth, eLin 3.2), (.qualityOfLife, eLin 3.5)
      , (.happiness, eLin 3.0), (.lifeExpectancy, eExp 4.2 2.0) ])
  , ("drugs",
      [ (.generalHealth, eExp (-5.0) 2.3), (.happiness, eExp 2.5 1.5)
      , (.mentalHealth, eLin (-3.8)), (.physicalFitness, eMin (-0.5))
      , (.qualityOfLife, eLin (-4.2)), (.lifeExpectancy, eExp (-4.8) 2.1) ])
  , ("smoking",
      [ (.generalHealth, eExp (-4.8) 2.2), (.physicalFitness, eExp (-3.5) 1.8)
      , (.mentalHealth, eLin (-2.2)), (.qualityOfLife, eLin (-3.0))
      , (.happiness, eLin (-1.8)), (.lifeExpectancy, eExp (-5.2) 2.3) ])
  , ("alcohol",
      [ (.generalHealth, eExp (-4.2) 2.0), (.mentalHealth, eLin (-2.8))
      , (.happiness, eLin 1.2), (.physicalFitness, eLin (-2.0))
      , (.qualityOfLife, eLin (-2.5)), (.lifeExpectancy, eExp (-3.8) 1.9) ])
  , ("chronic_stress",
      [ (.generalHealth, eExp (-4.5) 2.1), (.mentalHealth, eExp (-5.0) 2.2)
      , (.physicalFitness, eLin (-2.5)), (.qualityOfLife, eExp (-4.0) 1.9)
      , (.happiness, eExp (-4.8) 2.0), (.lifeExpectancy, eExp (-3.5) 1.8) ])
  , ("healthy_diet",
      [ (.generalHealth, eExp 3.8 1.7), (.physicalFitness, eLin 2.8)
      , (.mentalHealth, eLin 2.2), (.qualityOfLife, eLin 3.0)
      , (.happiness, eLin 2.0), (.lifeExpectancy, eLin 3.2) ])
  , ("processed_diet",
      [ (.generalHealth, eExp (-3.8) 1.9), (.physicalFitness, eLin (-2.5))
      , (.mentalHealth, eLin (-1.8)), (.qualityOfLife, eLin (-2.2))
      , (.happiness, eMin (-0.5)), (.lifeExpectancy, eLin (-2.8)) ])
  , ("social_connection",
      [ (.mentalHealth, eExp 4.0 1.9), (.happiness, eExp 4.2 2.0)
      , (.generalHealth, eLin 2.5), (.qualityOfLife, eExp 3.8 1.8)
      , (.physicalFitness, eMin 0.3), (.lifeExpectancy, eLin 3.0) ])
  , ("social_isolation",
      [ (.mentalHealth, eExp (-3.8) 1.9), (.happiness, eExp (-4.0) 2.0)
      , (.generalHealth, eLin (-2.0)), (.qualityOfLife, eExp (-3.5) 1.8)
      , (.physicalFitness, eMin (-0.2)), (.lifeExpectancy, eLin (-2.2)) ])
  , ("sedentary",
      [ (.physicalFitness, eExp (-4.0) 2.0), (.generalHealth, eExp (-3.2) 1.8)
      , (.mentalHealth, eLin (-2.0)), (.qualityOfLife, eLin (-2.5))
      , (.happiness, eLin (-1.8)), (.lifeExpectancy, eLin (-2.8)) ])
  , ("meditation",
      [ (.mentalHealth, eExp 3.5 1.8), (.happiness, eLin 3.0)
      , (.generalHealth, eLin 2.0), (.qualityOfLife, eLin 2.8)
      , (.physicalFitness, eMin 0.5), (.lifeExpectancy, eLin 1.8) ])
  , ("reading",
      [ (.mentalHealth, eLin 2.2), (.happiness, eLin 1.8)
      , (.generalHealth, eMin 0.2), (.qualityOfLife, eLin 2.0)
      , (.physicalFitness, eMin 0.0), (.lifeExpectancy, eMin 0.8) ])
  , ("journaling",
      [ (.mentalHealth, eLin 1.8), (.happiness, eLin 1.5)
      , (.generalHealth, eMin 0.1), (.qualityOfLife, eLin 1.6)
      , (.physicalFitness, eMin 0.0), (.lifeExpectancy, eMin 0.3) ])
  , ("hydration",
      [ (.generalHealth, eLin 2.5), (.physicalFitness, eLin 2.0)
      , (.mentalHealth, eLin 1.5), (.qualityOfLife, eLin 1.8)
      , (.happiness, eMin 0.8), (.lifeExpectancy, eLin 1.2) ])
  , ("gaming",
      [ (.mentalHealth, eLin (-1.8)), (.physicalFitness, eLin (-1.5))
      , (.generalHealth, eLin (-1.2)), (.happiness, eLin 1.0)
      , (.qualityOfLife, eLin (-1.5)), (.lifeExpectancy, eMin (-0.5)) ])
  , ("pornography",
      [ (.mentalHealth, eLin (-2.5)), (.happiness, eLin (-1.8))
      , (.generalHealth, eMin (-0.3)), (.qualityOfLife, eLin (-2.0))
      , (.physicalFitness, eMin 0.0), (.lifeExpectancy, eMin (-0.2)) ]) ]

/-- `HABIT_IMPACT_MATRIX[habitId]`. -/
def matrixFind (h : String) : Option (List (Metric × Effect)) :=
  lookupA HABIT_IMPACT_MATRIX h

/-- The running `results` record, as a function over the six metric fields. -/
def MetricVals := Metric → ℝ

/-- `BASELINE_VALUES` (the initial `results` record). -/
noncomputable def BASELINE_VALUES : MetricVals := fun m =>
  match m with
  | .lifeExpectancy => 78
  | _ => 50

/-- `results[metric] += x`. -/
noncomputable def addMetric (v : MetricVals) (m : Metric) (x : ℝ) : MetricVals :=
  fun m2 => if m2 = m then v m2 + x else v m2

/-- The `switch (impact.type)` computing `effectValue`; `impact.curve || 2.0`
is the curve fallback. -/
noncomputable def effectValue (level : ℚ) (e : Effect) : ℝ :=
  match e.etype with
  | .exponential => (e.multiplier : ℝ) * Real.rpow (level : ℝ) ((e.curve.getD 2 : ℚ) : ℝ)
  | .linear => (e.multiplier : ℝ) * (level : ℝ)
  | .minimal => (e.multiplier : ℝ) * Real.sqrt (level : ℝ)

/-- `hasExponentialEffect`: some descriptor is exponential with
`|multiplier| > 3.0`. -/
def hasExpEffect (effs : List (Metric × Effect)) : Prop :=
  ∃ me ∈ effs, me.2.etype = .exponential ∧ (3 : ℚ) < |me.2.multiplier|

instance (effs : List (Metric × Effect)) : Decidable (hasExpEffect effs) := by
  unfold hasExpEffect
  infer_instance

/-- `totalImpact`: the `reduce` summing `|multiplier × level^curve|` over the
exponential descriptors. -/
noncomputable def totalImpact (effs : List (Metric × Effect)) (level : ℚ) : ℝ :=
  effs.foldl
    (fun s me =>
      if me.2.etype = .exponential then
        s + |(me.2.multiplier : ℝ) * Real.rpow (level : ℝ) ((me.2.curve.getD 2 : ℚ) : ℝ)|
      else s) 0

/-- `generateRealisticExplanation`. -/
def generateRealisticExplanation (habitId : String) (level : ℚ) : String :=
  if habitId = "sleep_consistency" then
    "Quality sleep at level " ++ toString level ++ " has exponential effects on recovery, immune function, and cognitive performance. Sleep is the foundation of health."
  else if habitId = "exercise" then
    "Physical activity at level " ++ toString level ++ " provides exponential cardiovascular benefits and dramatically improves multiple health markers."
  else if habitId = "drugs" then
    "Recreational drug use at level " ++ toString level ++ " causes exponential damage to brain chemistry and organ function, while providing short-term mood elevation."
  else if habitId = "smoking" then
    "Smoking at level " ++ toString level ++ " creates exponential cardiovascular and respiratory damage that compounds over time."
  else if habitId = "alcohol" then
    "Alcohol consumption at level " ++ toString level ++ " has exponential effects on liver function and moderate effects on mental health."
  else if habitId = "chronic_stress" then
    "Chronic stress at level " ++ toString level ++ " elevates cortisol exponentially, affecting all body systems and mental well-being."
  else if habitId = "social_connection" then
    "Social connection at level " ++ toString level ++ " provides exponential mental health benefits and significantly improves quality of life."
  else if habitId = "reading" then
    "Reading at level " ++ toString level ++ " provides moderate cognitive benefits and mental stimulation, with minimal direct health effects."
  else if habitId = "meditation" then
    "Meditation at level " ++ toString level ++ " has exponential benefits for stress reduction and mental clarity."
  else if habitId = "healthy_diet" then
    "A healthy diet at level " ++ toString level ++ " provides broad health benefits across multiple systems."
  else
    "This habit at level " ++ toString level ++ " affects your health in multiple ways."

/-- The factor record pushed for a qualifying habit. -/
noncomputable def mkFactor (habitId : String) (info : HabitInfo)
    (effs : List (Metric × Effect)) (level : ℚ) : Factor :=
  ⟨info.name, totalImpact effs level, generateRealisticExplanation habitId level⟩

/-- Accumulator of the main `forEach` over the selection: the running
`results` record and the two factor lists. -/
structure Acc where
  vals : MetricVals
  pos : List Factor
  neg : List Factor

/-- One iteration of the habit loop of `calculateExponentialHealth`:
skip level 0, skip ids absent from the matrix or the catalog, fold the
descriptor effects into `results`, and push a dominant-factor record when
the habit has a significant exponential descriptor (bucketed by the
habit's catalog valence). -/
noncomputable def step (acc : Acc) (p : String × ℚ) : Acc :=
  if p.2 = 0 then acc
  else
    match matrixFind p.1 with
    | none => acc
    | some effs =>
      match catalogFind p.1 with
      | none => acc
      | some info =>
        { vals := effs.foldl (fun v me => addMetric v me.1 (effectValue p.2 me.2)) acc.vals
          pos := acc.pos ++
            (if hasExpEffect effs ∧ info.kind = .good then [mkFactor p.1 info effs p.2] else [])
          neg := acc.neg ++
            (if hasExpEffect effs ∧ info.kind = .bad then [mkFactor p.1 info effs p.2] else []) }

/-- The habit loop, starting from the baseline `results` and empty factor
lists. -/
noncomputable def core (sel : Selection) : Acc :=
  sel.foldl step ⟨BASELINE_VALUES, [], []⟩

/-- The final per-metric clamp: `lifeExpectancy` to `[65, 95]`, every other
metric to `[10, 100]`. -/
noncomputable def clampMetric (m : Metric) (x : ℝ) : ℝ :=
  match m with
  | .lifeExpectancy => clamp 65 95 x
  | _ => clamp 10 100 x

/-- The clamped `results` record. -/
noncomputable def clampedMetrics (sel : Selection) : MetricVals :=
  fun m => clampMetric m ((core sel).vals m)

/-- The organ loop: each organ starts from the clamped `generalHealth` and a
few habit-specific modifiers apply, then clamp to `[15, 100]`. -/
noncomputable def organBase (sel : Selection) (o : Organ) : ℝ :=
  let g := clampedMetrics sel .generalHealth
  match o with
  | .lungs => if 0 < getLevel sel "smoking" then g - getLevel sel "smoking" * 15 else g
  | .liver => if 0 < getLevel sel "alcohol" then g - getLevel sel "alcohol" * 18 else g
  | .brain => if 0 < getLevel sel "drugs" then g - getLevel sel "drugs" * 20 else g
  | .heart => if 0 < getLevel sel "exercise" then g + getLevel sel "exercise" * 8 else g
  | _ => g

/-- `organHealth[organId]` after its `[15, 100]` clamp. -/
noncomputable def organHealth (sel : Selection) (o : Organ) : ℝ :=
  clamp 15 100 (organBase sel o)

/-- `riskAssessment.diseaseRisk = clamp(5, 85, 100 - generalHealth)`. -/
noncomputable def diseaseRisk (sel : Selection) : ℝ :=
  clamp 5 85 (100 - clampedMetrics sel .generalHealth)

/-- `generateRealisticRecommendations` (computable: it only inspects levels
and the catalog). -/
def generateRealisticRecommendations (sel : Selection) : List Recommendation :=
  let criticalHabits := ["chronic_stress", "drugs", "smoking"]
  let crit := criticalHabits.foldl
    (fun acc habitId =>
      if 1 < getLevel sel habitId then
        acc ++ [⟨.critical,
          "Immediately reduce " ++ ((catalogFind habitId).map (fun h => h.name.toLower)).getD "undefined",
          "This habit has exponential negative effects that override positive health factors.",
          "Could improve overall health by 20-35%."⟩]
      else acc) []
  let withSleep :=
    if getLevel sel "sleep_consistency" < 2 then
      crit ++ [⟨.high, "Prioritize consistent, quality sleep",
        "Sleep has the highest exponential impact on health, recovery, and cognitive function.",
        "Could improve overall health by 25-40%."⟩]
    else crit
  let withExercise :=
    if getLevel sel "exercise" < 2 then
      withSleep ++ [⟨.high, "Increase regular physical exercise",
        "Exercise provides exponential benefits for cardiovascular health and overall fitness.",
        "Could improve physical fitness by 30-50%."⟩]
    else withSleep
  let withSocial :=
    if getLevel sel "social_connection" < 2 then
      withExercise ++ [⟨.moderate, "Strengthen social connections",
        "Social bonds provide exponential mental health benefits and improve quality of life.",
        "Could improve mental health by 15-25%."⟩]
    else withExercise
  let withDiet :=
    if getLevel sel "healthy_diet" < 2 then
      withSocial ++ [⟨.moderate, "Improve dietary habits",
        "A healthy diet provides broad benefits across multiple health systems.",
        "Could improve general health by 10-20%."⟩]
    else withSocial
  withDiet.take 5

end V1

namespace V2

/-!
Embedding of the "EXPONENTIAL HEALTH ASSESSMENT SYSTEM" file:
`EXPONENTIAL_MULTIPLIERS`, `ORGAN_VULNERABILITIES`, `BASELINE_ORGAN_HEALTH`,
`calculateExponentialHealth`, `getExponentialExplanation`,
`calculateRiskAssessment` and `generatePrioritizedRecommendations`.
This is the variant imported by the current store
(`src/utils/exponentialHealthCalculator`).
-/

/-- `EXPONENTIAL_MULTIPLIERS`. -/
def EXPONENTIAL_MULTIPLIERS : List (String × ℚ) :=
  [ ("chronic_stress", -3.5), ("drugs", -4.0), ("alcohol", -3.2)
  , ("smoking", -3.8), ("processed_diet", -2.8)
  , ("exercise", 3.5), ("social_connection", 2.8), ("healthy_diet", 3.0)
  , ("sleep_consistency", 3.8), ("hydration", 2.2)
  , ("sedentary", -1.5), ("social_isolation", -1.8), ("pornography", -1.4)
  , ("gaming", -1.2), ("meditation", 1.8), ("reading", 1.3), ("journaling", 1.1) ]

/-- `ORGAN_VULNERABILITIES[organId]`. -/
def organVulnerabilities (o : Organ) : List (String × ℚ) :=
  match o with
  | .lungs => [("smoking", 4.5), ("exercise", -2.8), ("chronic_stress", 1.8)]
  | .liver => [("alcohol", 5.0), ("processed_diet", 2.5), ("healthy_diet", -3.2)]
  | .heart => [("smoking", 3.8), ("exercise", -4.0), ("chronic_stress", 3.2), ("social_connection", -2.5)]
  | .brain => [("drugs", 4.8), ("alcohol", 3.5), ("exercise", -3.8), ("sleep_consistency", -4.2), ("chronic_stress", 3.8)]
  | .kidneys => [("drugs", 4.0), ("hydration", -3.5), ("chronic_stress", 2.2)]
  | .gut => [("processed_diet", 3.8), ("healthy_diet", -3.5), ("chronic_stress", 2.8)]
  | .skin => [("smoking", 3.2), ("hydration", -2.8), ("chronic_stress", 2.5)]

/-- `BASELINE_ORGAN_HEALTH`. -/
def BASELINE_ORGAN_HEALTH (o : Organ) : ℚ :=
  match o with
  | .lungs => 82
  | .heart => 78
  | .brain => 85
  | .liver => 80
  | .kidneys => 85
  | .gut => 75
  | .skin => 80

/-- `getExponentialExplanation` (its `impact` argument is not interpolated by
any template, so it is omitted here). -/
def getExponentialExplanation (habitId : String) (level : ℚ) : String :=
  if habitId = "chronic_stress" then
    "Chronic stress elevates cortisol levels exponentially, affecting immune function, cardiovascular health, and cognitive performance. Level " ++ toString level ++ " stress can override multiple positive health factors."
  else if habitId = "drugs" then
    "Recreational drug use causes exponential damage to neurotransmitter systems and organ function. Even moderate use (level " ++ toString level ++ ") significantly increases health risks across all body systems."
  else if habitId = "alcohol" then
    "Alcohol consumption has exponential effects on liver function and brain health. Level " ++ toString level ++ " consumption dramatically increases cirrhosis and cognitive decline risks."
  else if habitId = "smoking" then
    "Smoking creates exponential cardiovascular and respiratory damage. Level " ++ toString level ++ " smoking can negate the benefits of multiple positive health habits."
  else if habitId = "processed_diet" then
    "Ultra-processed foods trigger exponential inflammatory responses and metabolic dysfunction. Level " ++ toString level ++ " consumption significantly increases chronic disease risk."
  else if habitId = "exercise" then
    "Physical exercise provides exponential health benefits across all body systems. Level " ++ toString level ++ " activity dramatically improves cardiovascular health, cognitive function, and longevity."
  else if habitId = "social_connection" then
    "Strong social connections provide exponential mental health benefits and longevity advantages. Level " ++ toString level ++ " social engagement can counteract multiple negative health factors."
  else if habitId = "healthy_diet" then
    "A healthy diet provides exponential anti-inflammatory and protective effects. Level " ++ toString level ++ " nutrition significantly reduces chronic disease risk across all organs."
  else if habitId = "sleep_consistency" then
    "Quality sleep is the highest priority health factor, providing exponential recovery and cognitive benefits. Level " ++ toString level ++ " sleep consistency dramatically improves all health metrics."
  else if habitId = "hydration" then
    "Proper hydration provides exponential benefits for cellular function and organ health. Level " ++ toString level ++ " hydration significantly improves physical and cognitive performance."
  else
    "This habit has significant impact on your health at level " ++ toString level ++ "."

/-- Accumulator of the main habit loop: `totalHealthImpact` and the two
factor lists. -/
structure Acc where
  total : ℝ
  pos : List Factor
  neg : List Factor

/-- One iteration of the main habit loop of `calculateExponentialHealth`:
skip level 0, skip falsy multipliers and ids missing from the catalog;
`impact = multiplier × level^1.8` is accumulated and recorded as a factor,
bucketed by the sign of `impact`. -/
noncomputable def step (acc : Acc) (p : String × ℚ) : Acc :=
  if p.2 = 0 then acc
  else
    match lookupA EXPONENTIAL_MULTIPLIERS p.1 with
    | none => acc
    | some multiplier =>
      if multiplier = 0 then acc
      else
        match catalogFind p.1 with
        | none => acc
        | some info =>
          let impact : ℝ := (multiplier : ℝ) * Real.rpow (p.2 : ℝ) 1.8
          let factorData : Factor :=
            ⟨info.name, |impact|, getExponentialExplanation p.1 p.2⟩
          if 0 < impact then
            { total := acc.total + impact, pos := acc.pos ++ [factorData], neg := acc.neg }
          else
            { total := acc.total + impact, pos := acc.pos, neg := acc.neg ++ [factorData] }

/-- The main habit loop. -/
noncomputable def core (sel : Selection) : Acc := sel.foldl step ⟨0, [], []⟩

/-- The organ loop: each organ starts from its own `BASELINE_ORGAN_HEALTH`
entry; every selected habit present in the organ's vulnerability table (with
a truthy weight) subtracts `weight × level^1.6 × 3`; the result is clamped to
`[15, 100]`. -/
noncomputable def organStep (o : Organ) (v : ℝ) (p : String × ℚ) : ℝ :=
  if p.2 = 0 then v
  else
    match lookupA (organVulnerabilities o) p.1 with
    | none => v
    | some vulnerability =>
      if vulnerability = 0 then v
      else v - (vulnerability : ℝ) * Real.rpow (p.2 : ℝ) 1.6 * 3

noncomputable def organHealth (sel : Selection) (o : Organ) : ℝ :=
  clamp 15 100 (sel.foldl (organStep o) ((BASELINE_ORGAN_HEALTH o : ℚ) : ℝ))

/-- `overallHealth = clamp(10, 100, 50 + totalHealthImpact × 2.5)`. -/
noncomputable def overallHealth (sel : Selection) : ℝ :=
  clamp 10 100 (50 + (core sel).total * 2.5)

/-- The `physicalHabits` list of `calculateRiskAssessment`. -/
def physicalHabits : List String :=
  ["exercise", "healthy_diet", "sleep_consistency", "hydration", "smoking", "alcohol", "drugs", "processed_diet"]

/-- The `mentalHabits` list of `calculateRiskAssessment`. -/
def mentalHabits : List String :=
  ["social_connection", "meditation", "chronic_stress", "social_isolation", "sleep_consistency"]

/-- `Σ (EXPONENTIAL_MULTIPLIERS[h] || 0) × level^1.8` over a fixed habit
list. -/
noncomputable def impactOver (hs : List String) (sel : Selection) : ℝ :=
  hs.foldl
    (fun s h =>
      s + (((lookupA EXPONENTIAL_MULTIPLIERS h).getD 0 : ℚ) : ℝ) *
        Real.rpow (getLevel sel h : ℝ) 1.8) 0

/-- `riskAssessment.physicalHealth`. -/
noncomputable def physicalHealth (sel : Selection) : ℝ :=
  clamp 10 100 (50 + impactOver physicalHabits sel * 3)

/-- `riskAssessment.mentalHealth`. -/
noncomputable def mentalHealth (sel : Selection) : ℝ :=
  clamp 10 100 (50 + impactOver mentalHabits sel * 3.5)

/-- `riskAssessment.lifeExpectancy`. -/
noncomputable def lifeExpectancy (sel : Selection) : ℝ :=
  clamp 65 95 (78 + (overallHealth sel - 50) * 0.4)

/-- Sum of the `impact` fields of a factor list. -/
noncomputable def impactSum (l : List Factor) : ℝ :=
  l.foldl (fun s f => s + f.impact) 0

/-- `riskAssessment.diseaseRisk`. -/
noncomputable def diseaseRisk (sel : Selection) : ℝ :=
  clamp 5 85 (25 + impactSum (core sel).neg * 2 - impactSum (core sel).pos * 1.5)

/-- The critical recommendation record pushed for one harmful habit. -/
def critRecOf (habitId : String) : Recommendation :=
  ⟨.critical,
    "Reduce " ++ ((catalogFind habitId).map (fun h => h.name.toLower)).getD "undefined" ++ " immediately",
    "This habit has exponential negative effects that can override multiple positive health factors.",
    "Reducing this by one level could improve overall health by 15-25%."⟩

/-- The high-priority recommendation record pushed for one beneficial
habit. -/
def highRecOf (habitId : String) : Recommendation :=
  ⟨.high,
    "Increase " ++ ((catalogFind habitId).map (fun h => h.name.toLower)).getD "undefined",
    "This habit provides exponential health benefits that can counteract negative factors.",
    "Improving this could increase overall health by 10-20%."⟩

/-- The moderate recommendation record pushed for one beneficial habit. -/
def modRecOf (habitId : String) : Recommendation :=
  ⟨.moderate,
    "Improve " ++ ((catalogFind habitId).map (fun h => h.name.toLower)).getD "undefined",
    "This habit provides significant health benefits and supports overall well-being.",
    "Could improve specific health metrics by 5-10%."⟩

/-- The `criticalHarmful` loop: one critical recommendation per listed habit
with `level > 0`. -/
def critList (sel : Selection) : List Recommendation :=
  ["chronic_stress", "drugs", "smoking", "alcohol"].foldl
    (fun acc habitId =>
      if 0 < getLevel sel habitId then acc ++ [critRecOf habitId] else acc) []

/-- The `criticalBeneficial` loop (`level < 2`), appended after the critical
recommendations. -/
def highList (sel : Selection) : List Recommendation :=
  ["sleep_consistency", "exercise", "healthy_diet"].foldl
    (fun acc habitId =>
      if getLevel sel habitId < 2 then acc ++ [highRecOf habitId] else acc)
    (critList sel)

/-- The `moderateBeneficial` block (`level < 3`), run only when fewer than 5
recommendations have been collected so far. -/
def modList (sel : Selection) : List Recommendation :=
  if (highList sel).length < 5 then
    ["social_connection", "hydration", "meditation"].foldl
      (fun acc habitId =>
        if getLevel sel habitId < 3 then acc ++ [modRecOf habitId] else acc)
      (highList sel)
  else highList sel

/-- `generatePrioritizedRecommendations` (computable: it only inspects
levels and the catalog); the final `slice(0, 5)`. -/
def generatePrioritizedRecommendations (sel : Selection) : List Recommendation :=
  (modList sel).take 5

end V2

namespace P1

/-!
Embedding of the "REALISTIC TARGETED HEALTH ASSESSMENT SYSTEM" file
(`part_001`): `HABIT_EFFECTS`, `BASELINE_HEALTH`, its
`calculateExponentialHealth`, `calculateOrganHealthFromHabits`,
`getTargetedExplanation` and `generateTargetedRecommendations`.
-/

/-- The eight metrics of the `BASELINE_HEALTH` record. -/
inductive Metric
  | general_health
  | mental_health
  | happiness
  | quality_of_life
  | physical_fitness
  | life_expectancy
  | disease_risk
  | overall_wellness
deriving DecidableEq

/-- One `{ base, curve }` targeted-effect entry. -/
structure Effect where
  base : ℚ
  curve : ℚ
deriving DecidableEq

def eff (b c : ℚ) : Effect := ⟨b, c⟩

/-- `HABIT_EFFECTS`, rows and entries in source order. -/
def HABIT_EFFECTS : List (String × List (Metric × Effect)) :=
  [ ("sleep_consistency",
      [ (.general_health, eff 18 1.6), (.mental_health, eff 20 1.7)
      , (.quality_of_life, eff 12 1.3), (.physical_fitness, eff 4 1.1)
      , (.happiness, eff 6 1.2), (.life_expectancy, eff 8 1.4)
      , (.disease_risk, eff (-15) 1.5), (.overall_wellness, eff 14 1.5) ])
  , ("exercise",
      [ (.physical_fitness, eff 20 1.8), (.mental_health, eff 14 1.4)
      , (.happiness, eff 12 1.3), (.general_health, eff 8 1.2)
      , (.quality_of_life, eff 6 1.2), (.life_expectancy, eff 10 1.4)
      , (.disease_risk, eff (-12) 1.4), (.overall_wellness, eff 10 1.3) ])
  , ("healthy_diet",
      [ (.general_health, eff 16 1.5), (.physical_fitness, eff 10 1.3)
      , (.life_expectancy, eff 12 1.4), (.disease_risk, eff (-18) 1.6)
      , (.mental_health, eff 6 1.2), (.happiness, eff 4 1.1)
      , (.quality_of_life, eff 8 1.2), (.overall_wellness, eff 12 1.4) ])
  , ("hydration",
      [ (.general_health, eff 8 1.3), (.physical_fitness, eff 6 1.2)
      , (.mental_health, eff 4 1.1), (.happiness, eff 2 1.0)
      , (.quality_of_life, eff 4 1.1), (.life_expectancy, eff 3 1.1)
      , (.disease_risk, eff (-5) 1.2), (.overall_wellness, eff 5 1.2) ])
  , ("meditation",
      [ (.mental_health, eff 16 1.5), (.happiness, eff 12 1.4)
      , (.quality_of_life, eff 10 1.3), (.general_health, eff 4 1.1)
      , (.physical_fitness, eff 0 1.0), (.life_expectancy, eff 3 1.1)
      , (.disease_risk, eff (-6) 1.2), (.overall_wellness, eff 8 1.3) ])
  , ("social_connection",
      [ (.happiness, eff 18 1.6), (.mental_health, eff 14 1.4)
      , (.quality_of_life, eff 12 1.3), (.life_expectancy, eff 8 1.3)
      , (.general_health, eff 4 1.1), (.physical_fitness, eff 0 1.0)
      , (.disease_risk, eff (-5) 1.2), (.overall_wellness, eff 10 1.3) ])
  , ("reading",
      [ (.mental_health, eff 8 1.2), (.happiness, eff 6 1.2)
      , (.quality_of_life, eff 4 1.1), (.general_health, eff 0 1.0)
      , (.physical_fitness, eff 0 1.0), (.life_expectancy, eff 2 1.0)
      , (.disease_risk, eff 0 1.0), (.overall_wellness, eff 3 1.1) ])
  , ("journaling",
      [ (.mental_health, eff 10 1.3), (.happiness, eff 6 1.2)
      , (.quality_of_life, eff 4 1.1), (.general_health, eff 0 1.0)
      , (.physical_fitness, eff 0 1.0), (.life_expectancy, eff 0 1.0)
      , (.disease_risk, eff (-2) 1.0), (.overall_wellness, eff 4 1.1) ])
  , ("drugs",
      [ (.general_health, eff (-30) 1.8), (.mental_health, eff (-20) 1.6)
      , (.physical_fitness, eff (-8) 1.3), (.happiness, eff 8 1.4)
      , (.quality_of_life, eff (-15) 1.5), (.life_expectancy, eff (-12) 1.5)
      , (.disease_risk, eff 25 1.7), (.overall_wellness, eff (-18) 1.6) ])
  , ("smoking",
      [ (.general_health, eff (-18) 1.6), (.physical_fitness, eff (-12) 1.4)
      , (.life_expectancy, eff (-15) 1.5), (.disease_risk, eff 20 1.6)
      , (.mental_health, eff (-4) 1.2), (.happiness, eff 2 1.1)
      , (.quality_of_life, eff (-8) 1.3), (.overall_wellness, eff (-12) 1.4) ])
  , ("alcohol",
      [ (.general_health, eff (-15) 1.5), (.mental_health, eff (-12) 1.4)
      , (.happiness, eff 4 1.2), (.quality_of_life, eff (-10) 1.3)
      , (.physical_fitness, eff (-6) 1.2), (.life_expectancy, eff (-8) 1.3)
      , (.disease_risk, eff 12 1.4), (.overall_wellness, eff (-10) 1.3) ])
  , ("chronic_stress",
      [ (.mental_health, eff (-20) 1.7), (.general_health, eff (-16) 1.5)
      , (.happiness, eff (-18) 1.6), (.quality_of_life, eff (-14) 1.5)
      , (.physical_fitness, eff (-8) 1.3), (.life_expectancy, eff (-10) 1.4)
      , (.disease_risk, eff 15 1.5), (.overall_wellness, eff (-15) 1.5) ])
  , ("processed_diet",
      [ (.general_health, eff (-12) 1.4), (.disease_risk, eff 15 1.5)
      , (.physical_fitness, eff (-8) 1.3), (.life_expectancy, eff (-6) 1.3)
      , (.mental_health, eff (-4) 1.2), (.happiness, eff 2 1.1)
      , (.quality_of_life, eff (-6) 1.2), (.overall_wellness, eff (-8) 1.3) ])
  , ("sedentary",
      [ (.physical_fitness, eff (-16) 1.5), (.general_health, eff (-8) 1.3)
      , (.mental_health, eff (-6) 1.2), (.happiness, eff (-4) 1.2)
      , (.quality_of_life, eff (-6) 1.2), (.life_expectancy, eff (-4) 1.2)
      , (.disease_risk, eff 8 1.3), (.overall_wellness, eff (-6) 1.2) ])
  , ("social_isolation",
      [ (.happiness, eff (-16) 1.5), (.mental_health, eff (-14) 1.4)
      , (.quality_of_life, eff (-10) 1.3), (.life_expectancy, eff (-6) 1.2)
      , (.general_health, eff (-4) 1.2), (.physical_fitness, eff 0 1.0)
      , (.disease_risk, eff 4 1.2), (.overall_wellness, eff (-8) 1.3) ])
  , ("gaming",
      [ (.physical_fitness, eff (-8) 1.3), (.mental_health, eff (-6) 1.2)
      , (.happiness, eff 4 1.2), (.quality_of_life, eff (-4) 1.2)
      , (.general_health, eff (-2) 1.1), (.life_expectancy, eff 0 1.0)
      , (.disease_risk, eff 2 1.1), (.overall_wellness, eff (-3) 1.1) ])
  , ("pornography",
      [ (.mental_health, eff (-10) 1.3), (.happiness, eff (-8) 1.3)
      , (.quality_of_life, eff (-6) 1.2), (.general_health, eff 0 1.0)
      , (.physical_fitness, eff 0 1.0), (.life_expectancy, eff 0 1.0)
      , (.disease_risk, eff 0 1.0), (.overall_wellness, eff (-4) 1.2) ]) ]

/-- `BASELINE_HEALTH`. -/
def BASELINE_HEALTH (m : Metric) : ℚ :=
  match m with
  | .life_expectancy => 78
  | .disease_risk => 25
  | _ => 50

/-- Metric display name after the `replace(/_/g, ' ')` of the explanation
template. -/
def metricDisplay (m : Metric) : String :=
  match m with
  | .general_health => "general health"
  | .mental_health => "mental health"
  | .happiness => "happiness"
  | .quality_of_life => "quality of life"
  | .physical_fitness => "physical fitness"
  | .life_expectancy => "life expectancy"
  | .disease_risk => "disease risk"
  | .overall_wellness => "overall wellness"

/-- `impact = base × (level^curve / 3^curve)`. -/
noncomputable def impactOf (e : Effect) (level : ℚ) : ℝ :=
  (e.base : ℝ) * (Real.rpow (level : ℝ) (e.curve : ℝ) / Real.rpow 3 (e.curve : ℝ))

/-- `getTargetedExplanation`. -/
noncomputable def getTargetedExplanation (habitId : String) (m : Metric)
    (level : ℚ) (impact : ℝ) : String :=
  let habitName := ((catalogFind habitId).map (fun h => h.name)).getD habitId
  let direction := if 0 < impact then "improves" else "reduces"
  let intensity :=
    if 15 < |impact| then "dramatically"
    else if 8 < |impact| then "significantly" else "moderately"
  habitName ++ " at level " ++ toString level ++ " " ++ intensity ++ " " ++
    direction ++ " " ++ metricDisplay m ++ " by " ++ toString (round |impact|) ++ " points."

/-- Accumulator of the habit/effect loops: running metrics and the two
unsorted factor lists. -/
structure Acc where
  vals : Metric → ℝ
  pos : List Factor
  neg : List Factor

/-- The factor entries pushed for one `(metric, effect)` entry: the effect is
recorded when `|impact| ≥ 5`, bucketed by the sign of `impact`. -/
noncomputable def factorOf (habitId : String) (info : HabitInfo) (m : Metric)
    (e : Effect) (level : ℚ) : List Factor × List Factor :=
  let impact := impactOf e level
  if 5 ≤ |impact| then
    let f : Factor := ⟨info.name, |impact|, getTargetedExplanation habitId m level impact⟩
    if 0 < impact then ([f], []) else ([], [f])
  else ([], [])

/-- One `(metric, effect)` iteration: accumulate the impact and push the
factor entries. -/
noncomputable def effectStep (habitId : String) (info : HabitInfo) (level : ℚ)
    (acc : Acc) (me : Metric × Effect) : Acc :=
  let fs := factorOf habitId info me.1 me.2 level
  { vals := fun m2 => if m2 = me.1 then acc.vals m2 + impactOf me.2 level else acc.vals m2
    pos := acc.pos ++ fs.1
    neg := acc.neg ++ fs.2 }

/-- One habit iteration: skip level 0, unknown ids and ids missing from the
catalog; fold the habit's effect entries. -/
noncomputable def step (acc : Acc) (p : String × ℚ) : Acc :=
  if p.2 = 0 then acc
  else
    match lookupA HABIT_EFFECTS p.1 with
    | none => acc
    | some effs =>
      match catalogFind p.1 with
      | none => acc
      | some info => effs.foldl (effectStep p.1 info p.2) acc

/-- The habit loop over the selection. -/
noncomputable def core (sel : Selection) : Acc :=
  sel.foldl step ⟨fun m => ((BASELINE_HEALTH m : ℚ) : ℝ), [], []⟩

/-- The per-metric clamp block of `calculateExponentialHealth`. -/
noncomputable def clampMetric (m : Metric) (x : ℝ) : ℝ :=
  match m with
  | .life_expectancy => clamp 65 95 x
  | .disease_risk => clamp 5 85 x
  | _ => clamp 10 100 x

/-- The clamped health metrics. -/
noncomputable def clampedMetrics (sel : Selection) (m : Metric) : ℝ :=
  clampMetric m ((core sel).vals m)

/-- `exponentialFactors.positive.sort((a, b) => b.impact - a.impact)`
(and the same for `negative`): modelled as an insertion sort with the
descending-by-impact relation. -/
noncomputable def sortFactors (l : List Factor) : List Factor :=
  List.insertionSort (fun a b => b.impact ≤ a.impact) l

/-- The sorted positive dominant-factor list returned by the `part_001`
variant. -/
noncomputable def positiveFactors (sel : Selection) : List Factor :=
  sortFactors (core sel).pos

/-- The sorted negative dominant-factor list returned by the `part_001`
variant. -/
noncomputable def negativeFactors (sel : Selection) : List Factor :=
  sortFactors (core sel).neg

/-- `calculateOrganHealthFromHabits` (computable: integer weights times
levels). -/
def organAdjust (o : Organ) (v : ℚ) (p : String × ℚ) : ℚ :=
  if p.2 = 0 then v
  else if p.1 = "smoking" then
    match o with
    | .lungs => v - p.2 * 8
    | .heart => v - p.2 * 6
    | .skin => v - p.2 * 5
    | _ => v
  else if p.1 = "alcohol" then
    match o with
    | .liver => v - p.2 * 10
    | .brain => v - p.2 * 6
    | .gut => v - p.2 * 4
    | _ => v
  else if p.1 = "drugs" then
    match o with
    | .brain => v - p.2 * 12
    | .liver => v - p.2 * 8
    | .kidneys => v - p.2 * 8
    | .heart => v - p.2 * 6
    | _ => v
  else if p.1 = "processed_diet" then
    match o with
    | .gut => v - p.2 * 6
    | .liver => v - p.2 * 4
    | .heart => v - p.2 * 4
    | _ => v
  else if p.1 = "chronic_stress" then
    match o with
    | .brain => v - p.2 * 6
    | .heart => v - p.2 * 5
    | .gut => v - p.2 * 4
    | .skin => v - p.2 * 3
    | _ => v
  else if p.1 = "exercise" then
    match o with
    | .heart => v + p.2 * 5
    | .lungs => v + p.2 * 4
    | .brain => v + p.2 * 3
    | _ => v
  else if p.1 = "healthy_diet" then
    match o with
    | .gut => v + p.2 * 6
    | .liver => v + p.2 * 4
    | .heart => v + p.2 * 4
    | .brain => v + p.2 * 3
    | _ => v
  else if p.1 = "sleep_consistency" then
    match o with
    | .brain => v + p.2 * 5
    | .heart => v + p.2 * 3
    | .liver => v + p.2 * 3
    | _ => v
  else if p.1 = "hydration" then
    match o with
    | .kidneys => v + p.2 * 4
    | .skin => v + p.2 * 3
    | .brain => v + p.2 * 2
    | _ => v
  else v

/-- The initial organ record of `calculateOrganHealthFromHabits`. -/
def organBaseline (o : Organ) : ℚ :=
  match o with
  | .lungs => 80
  | .heart => 75
  | .brain => 85
  | .liver => 80
  | .kidneys => 85
  | .gut => 75
  | .skin => 80

/-- `calculateOrganHealthFromHabits` with its final `[15, 100]` clamp,
over the rationals (the source arithmetic is integral). -/
def organHealth (sel : Selection) (o : Organ) : ℚ :=
  max 15 (min 100 (sel.foldl (organAdjust o) (organBaseline o)))

/-- `generateTargetedRecommendations`. -/
def generateTargetedRecommendations (sel : Selection) : List Recommendation :=
  let criticalHarmful := ["drugs", "chronic_stress", "smoking"]
  let crit := criticalHarmful.foldl
    (fun acc habitId =>
      if 0 < getLevel sel habitId then
        acc ++ [⟨.critical,
          "Reduce " ++ ((catalogFind habitId).map (fun h => h.name.toLower)).getD "undefined" ++ " immediately",
          "This habit has severe negative effects on multiple health areas.",
          "Could improve overall health by 10-20 points."⟩]
      else acc) []
  let foundationalHabits := ["sleep_consistency", "exercise", "healthy_diet"]
  let withHigh := foundationalHabits.foldl
    (fun acc habitId =>
      if getLevel sel habitId < 2 then
        acc ++ [⟨.high,
          "Improve " ++ ((catalogFind habitId).map (fun h => h.name.toLower)).getD "undefined",
          "This foundational habit affects multiple health areas positively.",
          "Could improve overall health by 8-15 points."⟩]
      else acc) crit
  let targetedHabits := ["social_connection", "meditation", "hydration"]
  let withModerate := targetedHabits.foldl
    (fun acc habitId =>
      if getLevel sel habitId < 3 then
        acc ++ [⟨.moderate,
          "Increase " ++ ((catalogFind habitId).map (fun h => h.name.toLower)).getD "undefined",
          "This habit provides targeted benefits for specific health areas.",
          "Could improve specific metrics by 5-10 points."⟩]
      else acc) withHigh
  withModerate.take 5

end P1

/-- The detailed stats sub-record of the store meters. -/
structure MeterStats where
  cardioStrain : ℝ
  inflammation : ℝ
  sleepQuality : ℝ
  stressLoad : ℝ
  recoveryCapacity : ℝ
  cognitiveFunction : ℝ
  immuneSystem : ℝ
  metabolicHealth : ℝ

namespace P3

/-!
Embedding of the early store prototype (`part_003`): its `calculateMeters`
adds "some randomness for realism", so it receives the ambient random
stream and samples it; the samples are indexed in JS evaluation order
(`Math.random()` call sites 0, 1, 2, …).
-/

/-- The meters record of the `part_003` prototype. -/
structure Meters where
  health : ℝ
  happiness : ℝ
  qualityOfLife : ℝ
  mentalHealth : ℝ
  lifeExpectancy : ℝ
  diseaseRisk : ℝ
  physicalFitness : ℝ
  overallWellness : ℝ
  stats : MeterStats

/-- The filter keeping only levels that are integers in `[0, 3]`. -/
def validLevels (sel : Selection) : List ℚ :=
  ((sel.filter fun p => 0 ≤ p.2 ∧ p.2 ≤ 3 ∧ p.2.den = 1).map fun p => p.2)

/-- `avgHabit`: mean of the valid levels, `50` when there are none. -/
def avgHabit (sel : Selection) : ℚ :=
  let vs := validLevels sel
  if vs.length ≠ 0 then vs.foldl (· + ·) 0 / vs.length else 50

/-- `calculateMeters` of the `part_003` prototype; `rng n` is the value of
the `n`-th `Math.random()` call. -/
noncomputable def calculateMeters (sel : Selection) (rng : ℕ → ℝ) : Meters :=
  let clampedAvg : ℝ := max 0 (min 100 ((avgHabit sel : ℝ) * 25))
  let baseHealth : ℝ := min 100 (max 0 (clampedAvg + (rng 0 - 0.5) * 10))
  let baseHappiness : ℝ := min 100 (max 0 (clampedAvg * 0.9 + (rng 1 - 0.5) * 15))
  { health := baseHealth
    happiness := baseHappiness
    qualityOfLife := min 100 (max 0 ((baseHealth + baseHappiness) / 2 + (rng 2 - 0.5) * 8))
    mentalHealth := min 100 (max 0 (baseHappiness * 0.95 + (rng 3 - 0.5) * 12))
    lifeExpectancy := min 100 (max 60 (75 + (baseHealth - 50) * 0.3))
    diseaseRisk := min 100 (max 0 (100 - baseHealth + (rng 4 - 0.5) * 20))
    physicalFitness := min 100 (max 0 (clampedAvg * 0.8 + (rng 5 - 0.5) * 15))
    overallWellness := min 100 (max 0 ((baseHealth + baseHappiness) / 2 + (rng 6 - 0.5) * 10))
    stats :=
      { cardioStrain := min 10 (max 0 (10 - clampedAvg / 10 + (rng 7 - 0.5) * 2))
        inflammation := min 10 (max 0 (10 - clampedAvg / 10 + (rng 8 - 0.5) * 2))
        sleepQuality := min 10 (max 0 (clampedAvg / 10 + (rng 9 - 0.5) * 1.5))
        stressLoad := min 10 (max 0 (10 - clampedAvg / 10 + (rng 10 - 0.5) * 2))
        recoveryCapacity := min 10 (max 0 (clampedAvg / 10 + (rng 11 - 0.5) * 1.5))
        cognitiveFunction := min 10 (max 0 (clampedAvg / 10 + (rng 12 - 0.5) * 1.5))
        immuneSystem := min 10 (max 0 (clampedAvg / 10 + (rng 13 - 0.5) * 1.5))
        metabolicHealth := min 10 (max 0 (clampedAvg / 10 + (rng 14 - 0.5) * 1.5)) } }

end P3

namespace Store

/-!
Embedding of the current store (`src/src/store/useAtlasStore.ts`):
`calculateMeters` wraps the `V2` engine, and `setHabitLevel` validates the
level at the boundary before recomputing anything.  The ambient random
stream is passed along (the current `calculateMeters` never samples it).
-/

/-- The meters record exposed by the current store. -/
structure Meters where
  health : ℝ
  happiness : ℝ
  qualityOfLife : ℝ
  mentalHealth : ℝ
  lifeExpectancy : ℝ
  diseaseRisk : ℝ
  physicalFitness : ℝ
  overallWellness : ℝ
  stats : MeterStats
  positiveFactors : List Factor
  negativeFactors : List Factor
  organHealth : Organ → ℝ
  prioritizedRecommendations : List Recommendation

/-- `calculateMeters` of the current store.  All values derive from the `V2`
engine result; `rng` models the ambient `Math.random`, which this function
never calls. -/
noncomputable def calculateMeters (habits : Selection) (rng : ℕ → ℝ) : Meters :=
  let health := V2.overallHealth habits
  let happiness := V2.mentalHealth habits
  let mentalHealth := V2.mentalHealth habits
  let physicalFitness := V2.physicalHealth habits
  let lifeExpectancy := V2.lifeExpectancy habits
  let diseaseRisk := V2.diseaseRisk habits
  let qualityOfLife := max 0 (min 100 ((health + happiness + mentalHealth) / 3))
  let overallWellness := max 0 (min 100 ((health + happiness + physicalFitness) / 3))
  let negativeImpact := V2.impactSum (V2.core habits).neg
  let positiveImpact := V2.impactSum (V2.core habits).pos
  { health := health
    happiness := happiness
    qualityOfLife := qualityOfLife
    mentalHealth := mentalHealth
    lifeExpectancy := lifeExpectancy
    diseaseRisk := diseaseRisk
    physicalFitness := physicalFitness
    overallWellness := overallWellness
    stats :=
      { cardioStrain := max 0 (min 10 (5 + negativeImpact * 0.15 - positiveImpact * 0.1))
        inflammation := max 0 (min 10 (5 + negativeImpact * 0.12 - positiveImpact * 0.08))
        sleepQuality := max 0 (min 10 (5 + (getLevel habits "sleep_consistency" : ℝ) * 1.8 -
          (getLevel habits "chronic_stress" : ℝ) * 1.5))
        stressLoad := max 0 (min 10 (5 + (getLevel habits "chronic_stress" : ℝ) * 2.2 -
          (getLevel habits "meditation" : ℝ) * 1.2))
        recoveryCapacity := max 0 (min 10 (5 + positiveImpact * 0.1 - negativeImpact * 0.08))
        cognitiveFunction := max 0 (min 10 (5 + positiveImpact * 0.12 - negativeImpact * 0.15))
        immuneSystem := max 0 (min 10 (5 + positiveImpact * 0.1 - negativeImpact * 0.12))
        metabolicHealth := max 0 (min 10 (5 + positiveImpact * 0.11 - negativeImpact * 0.14)) }
    positiveFactors := (V2.core habits).pos
    negativeFactors := (V2.core habits).neg
    organHealth := V2.organHealth habits
    prioritizedRecommendations := V2.generatePrioritizedRecommendations habits }

/-- The store state touched by `setHabitLevel` (the UI-only fields
`focusOrganId`, `compareMode` and `accessibility` are independent of it and
omitted). -/
structure AtlasState where
  selectedHabits : Selection
  meters : Meters

/-- `{ ...currentHabits, [habitId]: { level } }`: replace in place when the
key exists, append otherwise. -/
def upsert : Selection → String → ℚ → Selection
  | [], h, l => [(h, l)]
  | (k, v) :: rest, h, l =>
    if k = h then (h, l) :: rest else (k, v) :: upsert rest h l

/-- `setHabitLevel`: levels that are negative, above 3 or non-integer are
rejected before any state change; otherwise the selection is updated and the
meters recomputed. -/
noncomputable def setHabitLevel (rng : ℕ → ℝ) (st : AtlasState)
    (habitId : String) (level : ℚ) : AtlasState :=
  if level < 0 ∨ 3 < level ∨ level.den ≠ 1 then st
  else
    let newHabits := upsert st.selectedHabits habitId level
    { selectedHabits := newHabits, meters := calculateMeters newHabits rng }

end Store

/-! ## Helper lemmas -/

theorem clamp_of_mem {lo hi x : ℝ} (h1 : lo ≤ x) (h2 : x ≤ hi) : clamp lo hi x = x := by
  unfold clamp
  rw [min_eq_right h2, max_eq_right h1]

theorem lookupA_isSome_iff {α : Type} (l : List (String × α)) (h : String) :
    (lookupA l h).isSome = true ↔ h ∈ l.map Prod.fst := by
  induction l with
  | nil => simp [lookupA]
  | cons p rest ih =>
    cases p with
    | mk k v =>
      by_cases hk : k = h
      · subst hk
        simp [lookupA]
      · simp [lookupA, hk, ih, Ne.symm hk]

/-- Every habit id of the Impact Model is in the modelled catalog. -/
theorem matrix_keys_in_catalog :
    ∀ k ∈ V1.HABIT_IMPACT_MATRIX.map Prod.fst, k ∈ habitsData.map Prod.fst := by
  decide

theorem matrixFind_catalog {h : String} (hm : (V1.matrixFind h).isSome = true) :
    (catalogFind h).isSome = true := by
  unfold V1.matrixFind at hm
  unfold catalogFind
  rw [lookupA_isSome_iff] at hm
  rw [lookupA_isSome_iff]
  exact matrix_keys_in_catalog h hm

/-- Unique keys determine unique levels. -/
theorem nodup_key_level {sel : Selection} (hnd : (sel.map Prod.fst).Nodup)
    {h : String} {a b : ℚ} (ha : (h, a) ∈ sel) (hb : (h, b) ∈ sel) : a = b := by
  induction sel with
  | nil => cases ha
  | cons q rest ih =>
    rcases List.mem_cons.mp ha with ha1 | ha1 <;>
      rcases List.mem_cons.mp hb with hb1 | hb1
    · simpa using congrArg Prod.snd (ha1.trans hb1.symm)
    · exfalso
      have hmem : h ∈ rest.map Prod.fst := List.mem_map.mpr ⟨(h, b), hb1, rfl⟩
      rw [← ha1] at hnd
      exact (List.nodup_cons.mp (by simpa using hnd)).1 hmem
    · exfalso
      have hmem : h ∈ rest.map Prod.fst := List.mem_map.mpr ⟨(h, a), ha1, rfl⟩
      rw [← hb1] at hnd
      exact (List.nodup_cons.mp (by simpa using hnd)).1 hmem
    · exact ih (List.nodup_cons.mp (by simpa using hnd)).2 ha1 hb1

/-- `foldl` with a conditionally-appending body, as a `flatten` of mapped
singletons. -/
theorem foldl_optrec {α β : Type} (c : α → Prop) [DecidablePred c] (g : α → β)
    (l : List α) (acc : List β) :
    l.foldl (fun a x => if c x then a ++ [g x] else a) acc
      = acc ++ (l.map fun x => if c x then [g x] else []).flatten := by
  induction l generalizing acc with
  | nil => simp
  | cons x rest ih =>
    by_cases hx : c x <;> simp [hx, ih, List.append_assoc]

theorem flatten_singletons_length {α β : Type} (c : α → Prop) [DecidablePred c]
    (g : α → β) (l : List α) :
    ((l.map fun x => if c x then [g x] else []).flatten).length ≤ l.length := by
  induction l with
  | nil => simp
  | cons x rest ih =>
    by_cases hx : c x <;>
      simp only [List.map_cons, hx, if_true, if_false, List.flatten_cons,
        List.length_append, List.length_cons, List.length_nil, List.nil_append,
        List.length_singleton] <;>
      omega

/-- `x` is within `[lo, hi]`. -/
def inRange (lo hi x : ℝ) : Prop := lo ≤ x ∧ x ≤ hi

theorem clamp_inRange {lo hi : ℝ} (x : ℝ) (h : lo ≤ hi) : inRange lo hi (clamp lo hi x) :=
  ⟨le_clamp _ _ _, clamp_le h⟩

theorem avg3_range {a b c : ℝ} (ha : inRange 10 100 a) (hb : inRange 10 100 b)
    (hc : inRange 10 100 c) : inRange 10 100 (max 0 (min 100 ((a + b + c) / 3))) := by
  constructor
  · have h1 : (10 : ℝ) ≤ (a + b + c) / 3 := by
      rcases ha with ⟨ha1, _⟩
      rcases hb with ⟨hb1, _⟩
      rcases hc with ⟨hc1, _⟩
      linarith
    exact le_trans (le_min (by norm_num) h1) (le_max_right _ _)
  · exact max_le (by norm_num) (min_le_left _ _)

theorem V2_organ_empty (o : Organ) :
    V2.organHealth [] o = ((V2.BASELINE_ORGAN_HEALTH o : ℚ) : ℝ) := by
  have hb1 : (15 : ℝ) ≤ ((V2.BASELINE_ORGAN_HEALTH o : ℚ) : ℝ) := by
    cases o <;> norm_num [V2.BASELINE_ORGAN_HEALTH]
  have hb2 : ((V2.BASELINE_ORGAN_HEALTH o : ℚ) : ℝ) ≤ 100 := by
    cases o <;> norm_num [V2.BASELINE_ORGAN_HEALTH]
  exact clamp_of_mem hb1 hb2

/-! ## Claim theorems -/

/-- C3: for the all-zero (empty) selection, the scoring engine returns
exactly the declared baseline for every metric (generalHealth 50,
mentalHealth 50, physicalFitness 50, qualityOfLife 50, happiness 50,
lifeExpectancy 78), and the organ projector returns exactly the declared
per-organ baselines (`BASELINE_ORGAN_HEALTH`) for all seven organs. -/
theorem claim_C3_baseline_identity :
    V1.clampedMetrics [] V1.Metric.generalHealth = 50 ∧
    V1.clampedMetrics [] V1.Metric.mentalHealth = 50 ∧
    V1.clampedMetrics [] V1.Metric.physicalFitness = 50 ∧
    V1.clampedMetrics [] V1.Metric.qualityOfLife = 50 ∧
    V1.clampedMetrics [] V1.Metric.happiness = 50 ∧
    V1.clampedMetrics [] V1.Metric.lifeExpectancy = 78 ∧
    (∀ o : Organ, V2.organHealth [] o = ((V2.BASELINE_ORGAN_HEALTH o : ℚ) : ℝ)) := by
  refine ⟨?_, ?_, ?_, ?_, ?_, ?_, V2_organ_empty⟩ <;>
    · show clamp _ _ _ = _
      rw [clamp_of_mem] <;> norm_num [V1.core, V1.BASELINE_VALUES, List.foldl_nil]

/-- C4: every clamped output value lies within its declared range, for every
input selection: the five percentage metrics in `[10, 100]`, lifeExpectancy
in `[65, 95]`, diseaseRisk in `[5, 85]`, and every per-organ value in
`[15, 100]` — both for the `V1` engine result and for the meters object the
current store derives from the `V2` engine. -/
theorem claim_C4_clamp_ranges (sel : Selection) (rng : ℕ → ℝ) :
    inRange 10 100 (V1.clampedMetrics sel V1.Metric.generalHealth) ∧
    inRange 10 100 (V1.clampedMetrics sel V1.Metric.mentalHealth) ∧
    inRange 10 100 (V1.clampedMetrics sel V1.Metric.physicalFitness) ∧
    inRange 10 100 (V1.clampedMetrics sel V1.Metric.qualityOfLife) ∧
    inRange 10 100 (V1.clampedMetrics sel V1.Metric.happiness) ∧
    inRange 65 95 (V1.clampedMetrics sel V1.Metric.lifeExpectancy) ∧
    inRange 5 85 (V1.diseaseRisk sel) ∧
    (∀ o : Organ, inRange 15 100 (V1.organHealth sel o)) ∧
    inRange 10 100 ((Store.calculateMeters sel rng).health) ∧
    inRange 10 100 ((Store.calculateMeters sel rng).mentalHealth) ∧
    inRange 10 100 ((Store.calculateMeters sel rng).happiness) ∧
    inRange 10 100 ((Store.calculateMeters sel rng).physicalFitness) ∧
    inRange 10 100 ((Store.calculateMeters sel rng).qualityOfLife) ∧
    inRange 65 95 ((Store.calculateMeters sel rng).lifeExpectancy) ∧
    inRange 5 85 ((Store.calculateMeters sel rng).diseaseRisk) ∧
    (∀ o : Organ, inRange 15 100 ((Store.calculateMeters sel rng).organHealth o)) := by
  refine ⟨?_, ?_, ?_, ?_, ?_, ?_, ?_, fun o => ?_, ?_, ?_, ?_, ?_, ?_, ?_, ?_, fun o => ?_⟩
  · exact clamp_inRange _ (by norm_num)
  · exact clamp_inRange _ (by norm_num)
  · exact clamp_inRange _ (by norm_num)
  · exact clamp_inRange _ (by norm_num)
  · exact clamp_inRange _ (by norm_num)
  · exact clamp_inRange _ (by norm_num)
  · exact clamp_inRange _ (by norm_num)
  · exact clamp_inRange _ (by norm_num)
  · exact clamp_inRange _ (by norm_num)
  · exact clamp_inRange _ (by norm_num)
  · exact clamp_inRange _ (by norm_num)
  · exact clamp_inRange _ (by norm_num)
  · exact avg3_range (clamp_inRange _ (by norm_num)) (clamp_inRange _ (by norm_num))
      (clamp_inRange _ (by norm_num))
  · exact clamp_inRange _ (by norm_num)
  · exact clamp_inRange _ (by norm_num)
  · exact clamp_inRange _ (by norm_num)

/-- C8 (counterexample): the `part_003` prototype meter computation samples
the ambient random stream, so two invocations with the identical (empty)
selection but different ambient randomness differ — the claimed
bit-identical determinism fails on that cited variant. -/
theorem claim_C8_counterexample :
    P3.calculateMeters [] (fun _ => 0) ≠ P3.calculateMeters [] (fun _ => (1 : ℝ) / 2) := by
  intro heq
  have h := congrArg P3.Meters.health heq
  have havg : P3.avgHabit [] = 50 := rfl
  have h1 : (P3.calculateMeters [] (fun _ => 0)).health = 95 := by
    show min 100 (max 0 (max 0 (min 100 ((P3.avgHabit [] : ℝ) * 25)) + ((0 : ℝ) - 0.5) * 10)) = 95
    rw [havg]
    rw [show ((((50 : ℚ) : ℝ)) * 25) = 1250 by norm_num]
    rw [min_eq_left (by norm_num : (100 : ℝ) ≤ 1250)]
    rw [max_eq_right (by norm_num : (0 : ℝ) ≤ 100)]
    rw [show ((100 : ℝ) + (0 - 0.5) * 10) = 95 by norm_num]
    rw [max_eq_right (by norm_num : (0 : ℝ) ≤ 95)]
    rw [min_eq_right (by norm_num : (95 : ℝ) ≤ 100)]
  have h2 : (P3.calculateMeters [] (fun _ => (1 : ℝ) / 2)).health = 100 := by
    show min 100 (max 0 (max 0 (min 100 ((P3.avgHabit [] : ℝ) * 25)) + ((1 : ℝ) / 2 - 0.5) * 10)) = 100
    rw [havg]
    rw [show ((((50 : ℚ) : ℝ)) * 25) = 1250 by norm_num]
    rw [min_eq_left (by norm_num : (100 : ℝ) ≤ 1250)]
    rw [max_eq_right (by norm_num : (0 : ℝ) ≤ 100)]
    rw [show ((100 : ℝ) + ((1 : ℝ) / 2 - 0.5) * 10) = 100 by norm_num]
    rw [max_eq_right (by norm_num : (0 : ℝ) ≤ 100)]
    rw [min_eq_right (by norm_num : (100 : ℝ) ≤ 100)]
  rw [h1, h2] at h
  norm_num at h

/-- C8 (amended): the current store meter computation — and through it the
`V2` engine it wraps — never consults the ambient random stream: with the
stream made explicit, identical selections yield identical outputs for any
two streams.  (The `part_003` prototype violates this; see the
counterexample.) -/
theorem claim_C8_amended_determinism (sel : Selection) (r1 r2 : ℕ → ℝ) :
    Store.calculateMeters sel r1 = Store.calculateMeters sel r2 := rfl

/-- C9: a level that is negative, above the declared maximum 3, or
non-integer is rejected by `setHabitLevel` at the boundary: the state —
stored selection and derived meters — is returned unchanged, so the engine
never observes the invalid level. -/
theorem claim_C9_invalid_level_rejected (rng : ℕ → ℝ) (st : Store.AtlasState)
    (habitId : String) (level : ℚ)
    (hbad : level < 0 ∨ 3 < level ∨ level.den ≠ 1) :
    Store.setHabitLevel rng st habitId level = st := by
  unfold Store.setHabitLevel
  rw [if_pos hbad]

/-- Witness for C9 at the concrete invalid level 4. -/
theorem claim_C9_witness :
    ((4 : ℚ) < 0 ∨ (3 : ℚ) < 4 ∨ (4 : ℚ).den ≠ 1) ∧
    Store.setHabitLevel (fun _ => 0) ⟨[], Store.calculateMeters [] (fun _ => 0)⟩ "smoking" 4
      = ⟨[], Store.calculateMeters [] (fun _ => 0)⟩ :=
  ⟨Or.inr (Or.inl (by norm_num)),
    claim_C9_invalid_level_rejected _ _ _ _ (Or.inr (Or.inl (by norm_num)))⟩

/-- The per-descriptor delta, following the spec's words: `linear`:
`delta = magnitude × level`; `exponential`:
`delta = magnitude × level^curveExponent`; `diminishing` ("minimal"):
`delta = magnitude × sqrt(level)`.  (The spec's `curveExponent` is the
descriptor's curve; descriptors without one default to 2.0.) -/
noncomputable def specDelta (e : V1.Effect) (l : ℚ) : ℝ :=
  match e.etype with
  | .linear => (e.multiplier : ℝ) * (l : ℝ)
  | .exponential => (e.multiplier : ℝ) * Real.rpow (l : ℝ) ((e.curve.getD 2 : ℚ) : ℝ)
  | .minimal => (e.multiplier : ℝ) * Real.sqrt (l : ℝ)

theorem specDelta_eq_effectValue (e : V1.Effect) (l : ℚ) :
    specDelta e l = V1.effectValue l e := by
  rcases e with ⟨t, mult, c⟩
  cases t <;> rfl

/-- Sum of a habit's descriptor deltas landing on metric `m`. -/
noncomputable def metricSum (effs : List (V1.Metric × V1.Effect)) (l : ℚ)
    (m : V1.Metric) : ℝ :=
  (effs.map fun me => if me.1 = m then V1.effectValue l me.2 else 0).sum

/-- What the code adds to metric `m` for one selection entry. -/
noncomputable def codeDelta (p : String × ℚ) (m : V1.Metric) : ℝ :=
  if p.2 = 0 then 0
  else
    match V1.matrixFind p.1 with
    | none => 0
    | some effs =>
      match catalogFind p.1 with
      | none => 0
      | some _ => metricSum effs p.2 m

/-- The claim's per-habit delta: for a habit with level > 0 and an Impact
Model entry, the sum over its descriptors affecting `m` of the spec's
formulas. -/
noncomputable def claimDelta (p : String × ℚ) (m : V1.Metric) : ℝ :=
  if 0 < p.2 then
    match V1.matrixFind p.1 with
    | some effs => (effs.map fun me => if me.1 = m then specDelta me.2 p.2 else 0).sum
    | none => 0
  else 0

theorem foldl_addMetric (effs : List (V1.Metric × V1.Effect)) (l : ℚ)
    (v : V1.MetricVals) (m : V1.Metric) :
    (effs.foldl (fun v2 me => V1.addMetric v2 me.1 (V1.effectValue l me.2)) v) m
      = v m + metricSum effs l m := by
  induction effs generalizing v with
  | nil => simp [metricSum]
  | cons me rest ih =>
    rw [List.foldl_cons, ih]
    unfold metricSum
    simp only [List.map_cons, List.sum_cons]
    unfold V1.addMetric
    by_cases hm : m = me.1
    · rw [if_pos hm, if_pos hm.symm]
      ring
    · rw [if_neg hm, if_neg (fun hx => hm hx.symm)]
      ring

theorem core_vals (sel : Selection) (m : V1.Metric) :
    (V1.core sel).vals m
      = V1.BASELINE_VALUES m + (sel.map fun p => codeDelta p m).sum := by
  suffices h : ∀ acc : V1.Acc,
      (sel.foldl V1.step acc).vals m = acc.vals m + (sel.map fun p => codeDelta p m).sum by
    exact h _
  induction sel with
  | nil => intro acc; simp [V1.core]
  | cons p rest ih =>
    intro acc
    rw [List.foldl_cons, ih]
    have hstep : (V1.step acc p).vals m = acc.vals m + codeDelta p m := by
      unfold V1.step codeDelta
      by_cases h0 : p.2 = 0
      · rw [if_pos h0, if_pos h0]
        ring
      · rw [if_neg h0, if_neg h0]
        cases hm : V1.matrixFind p.1 with
        | none => simp
        | some effs =>
          cases hc : catalogFind p.1 with
          | none => simp
          | some info => simp [foldl_addMetric]
    rw [hstep]
    simp only [List.map_cons, List.sum_cons]
    ring

theorem codeDelta_eq_claimDelta {p : String × ℚ} (hp : 0 ≤ p.2) (m : V1.Metric) :
    codeDelta p m = claimDelta p m := by
  unfold codeDelta claimDelta
  by_cases h0 : p.2 = 0
  · rw [if_pos h0, if_neg (by rw [h0]; exact lt_irrefl 0)]
  · have hpos : (0 : ℚ) < p.2 := lt_of_le_of_ne hp (Ne.symm h0)
    rw [if_neg h0, if_pos hpos]
    cases hm : V1.matrixFind p.1 with
    | none => rfl
    | some effs =>
      have hsome : (catalogFind p.1).isSome = true :=
        matrixFind_catalog (by rw [hm]; rfl)
      cases hcc : catalogFind p.1 with
      | none => rw [hcc] at hsome; simp at hsome
      | some info =>
        unfold metricSum
        refine congrArg List.sum (List.map_congr_left fun me _ => ?_)
        rw [specDelta_eq_effectValue]

/-- C1: for every selection of (boundary-validated, hence non-negative)
levels and every metric, the engine's pre-clamp value for that metric is the
declared baseline plus the plain sum, over the selected habits with
level > 0 that have an Impact Model entry, of the spec's per-descriptor
deltas: `magnitude × level` (linear), `magnitude × level^curveExponent`
(exponential), `magnitude × sqrt(level)` (diminishing/minimal). -/
theorem claim_C1_delta_summation (sel : Selection) (hlv : ∀ p ∈ sel, 0 ≤ p.2)
    (m : V1.Metric) :
    (V1.core sel).vals m
      = V1.BASELINE_VALUES m + (sel.map fun p => claimDelta p m).sum := by
  rw [core_vals]
  exact congrArg (fun s => V1.BASELINE_VALUES m + s)
    (congrArg List.sum (List.map_congr_left fun p hp => codeDelta_eq_claimDelta (hlv p hp) m))

/-- Witness for C1 at the concrete selection `{exercise: 2}` and metric
`generalHealth`. -/
theorem claim_C1_witness :
    (∀ p ∈ [(("exercise" : String), (2 : ℚ))], 0 ≤ p.2) ∧
    (V1.core [(("exercise" : String), (2 : ℚ))]).vals V1.Metric.generalHealth
      = V1.BASELINE_VALUES V1.Metric.generalHealth
        + (([(("exercise" : String), (2 : ℚ))].map
            fun p => claimDelta p V1.Metric.generalHealth).sum) :=
  ⟨by decide, claim_C1_delta_summation _ (by decide) _⟩

/-- The dominant-factor entries one selection entry contributes (positive
bucket, negative bucket). -/
noncomputable def v1FactorsOf (p : String × ℚ) : List Factor × List Factor :=
  if p.2 = 0 then ([], [])
  else
    match V1.matrixFind p.1 with
    | none => ([], [])
    | some effs =>
      match catalogFind p.1 with
      | none => ([], [])
      | some info =>
        ((if V1.hasExpEffect effs ∧ info.kind = .good
            then [V1.mkFactor p.1 info effs p.2] else []),
         (if V1.hasExpEffect effs ∧ info.kind = .bad
            then [V1.mkFactor p.1 info effs p.2] else []))

theorem step_pos (acc : V1.Acc) (p : String × ℚ) :
    (V1.step acc p).pos = acc.pos ++ (v1FactorsOf p).1 := by
  unfold V1.step v1FactorsOf
  by_cases h0 : p.2 = 0
  · rw [if_pos h0, if_pos h0]
    simp
  · rw [if_neg h0, if_neg h0]
    cases hm : V1.matrixFind p.1 with
    | none => simp
    | some effs =>
      cases hc : catalogFind p.1 with
      | none => simp
      | some info => rfl

theorem step_neg (acc : V1.Acc) (p : String × ℚ) :
    (V1.step acc p).neg = acc.neg ++ (v1FactorsOf p).2 := by
  unfold V1.step v1FactorsOf
  by_cases h0 : p.2 = 0
  · rw [if_pos h0, if_pos h0]
    simp
  · rw [if_neg h0, if_neg h0]
    cases hm : V1.matrixFind p.1 with
    | none => simp
    | some effs =>
      cases hc : catalogFind p.1 with
      | none => simp
      | some info => rfl

theorem core_pos (sel : Selection) :
    (V1.core sel).pos = (sel.map fun p => (v1FactorsOf p).1).flatten := by
  suffices h : ∀ acc : V1.Acc,
      (sel.foldl V1.step acc).pos = acc.pos ++ (sel.map fun p => (v1FactorsOf p).1).flatten by
    simpa using h ⟨V1.BASELINE_VALUES, [], []⟩
  induction sel with
  | nil => intro acc; simp
  | cons p rest ih =>
    intro acc
    rw [List.foldl_cons, ih, step_pos]
    simp [List.append_assoc]

theorem core_neg (sel : Selection) :
    (V1.core sel).neg = (sel.map fun p => (v1FactorsOf p).2).flatten := by
  suffices h : ∀ acc : V1.Acc,
      (sel.foldl V1.step acc).neg = acc.neg ++ (sel.map fun p => (v1FactorsOf p).2).flatten by
    simpa using h ⟨V1.BASELINE_VALUES, [], []⟩
  induction sel with
  | nil => intro acc; simp
  | cons p rest ih =>
    intro acc
    rw [List.foldl_cons, ih, step_neg]
    simp [List.append_assoc]

theorem mem_core_pos {sel : Selection} {f : Factor} :
    f ∈ (V1.core sel).pos ↔ ∃ p ∈ sel, f ∈ (v1FactorsOf p).1 := by
  rw [core_pos]
  constructor
  · intro hf
    obtain ⟨lst, hlst, hfl⟩ := List.mem_flatten.mp hf
    obtain ⟨p, hp, rfl⟩ := List.mem_map.mp hlst
    exact ⟨p, hp, hfl⟩
  · rintro ⟨p, hp, hfp⟩
    exact List.mem_flatten.mpr ⟨_, List.mem_map.mpr ⟨p, hp, rfl⟩, hfp⟩

theorem mem_core_neg {sel : Selection} {f : Factor} :
    f ∈ (V1.core sel).neg ↔ ∃ p ∈ sel, f ∈ (v1FactorsOf p).2 := by
  rw [core_neg]
  constructor
  · intro hf
    obtain ⟨lst, hlst, hfl⟩ := List.mem_flatten.mp hf
    obtain ⟨p, hp, rfl⟩ := List.mem_map.mp hlst
    exact ⟨p, hp, hfl⟩
  · rintro ⟨p, hp, hfp⟩
    exact List.mem_flatten.mpr ⟨_, List.mem_map.mpr ⟨p, hp, rfl⟩, hfp⟩

theorem mem_v1FactorsOf_pos {p : String × ℚ} {f : Factor}
    (hf : f ∈ (v1FactorsOf p).1) :
    p.2 ≠ 0 ∧ ∃ effs info, V1.matrixFind p.1 = some effs ∧
      catalogFind p.1 = some info ∧ V1.hasExpEffect effs ∧ info.kind = .good ∧
      f = V1.mkFactor p.1 info effs p.2 := by
  unfold v1FactorsOf at hf
  by_cases h0 : p.2 = 0
  · rw [if_pos h0] at hf
    simp at hf
  · rw [if_neg h0] at hf
    refine ⟨h0, ?_⟩
    cases hm : V1.matrixFind p.1 with
    | none => rw [hm] at hf; simp at hf
    | some effs =>
      rw [hm] at hf
      cases hc : catalogFind p.1 with
      | none => rw [hc] at hf; simp at hf
      | some info =>
        rw [hc] at hf
        replace hf : f ∈ (if V1.hasExpEffect effs ∧ info.kind = Kind.good
            then [V1.mkFactor p.1 info effs p.2] else []) := hf
        by_cases hcond : V1.hasExpEffect effs ∧ info.kind = .good
        · rw [if_pos hcond] at hf
          exact ⟨effs, info, rfl, rfl, hcond.1, hcond.2, List.mem_singleton.mp hf⟩
        · rw [if_neg hcond] at hf
          simp at hf

theorem mem_v1FactorsOf_neg {p : String × ℚ} {f : Factor}
    (hf : f ∈ (v1FactorsOf p).2) :
    p.2 ≠ 0 ∧ ∃ effs info, V1.matrixFind p.1 = some effs ∧
      catalogFind p.1 = some info ∧ V1.hasExpEffect effs ∧ info.kind = .bad ∧
      f = V1.mkFactor p.1 info effs p.2 := by
  unfold v1FactorsOf at hf
  by_cases h0 : p.2 = 0
  · rw [if_pos h0] at hf
    simp at hf
  · rw [if_neg h0] at hf
    refine ⟨h0, ?_⟩
    cases hm : V1.matrixFind p.1 with
    | none => rw [hm] at hf; simp at hf
    | some effs =>
      rw [hm] at hf
      cases hc : catalogFind p.1 with
      | none => rw [hc] at hf; simp at hf
      | some info =>
        rw [hc] at hf
        replace hf : f ∈ (if V1.hasExpEffect effs ∧ info.kind = Kind.bad
            then [V1.mkFactor p.1 info effs p.2] else []) := hf
        by_cases hcond : V1.hasExpEffect effs ∧ info.kind = .bad
        · rw [if_pos hcond] at hf
          exact ⟨effs, info, rfl, rfl, hcond.1, hcond.2, List.mem_singleton.mp hf⟩
        · rw [if_neg hcond] at hf
          simp at hf

theorem v1FactorsOf_pos_intro {p : String × ℚ} (h0 : p.2 ≠ 0)
    {effs : List (V1.Metric × V1.Effect)} {info : HabitInfo}
    (hm : V1.matrixFind p.1 = some effs) (hc : catalogFind p.1 = some info)
    (hexp : V1.hasExpEffect effs) (hgood : info.kind = .good) :
    V1.mkFactor p.1 info effs p.2 ∈ (v1FactorsOf p).1 := by
  unfold v1FactorsOf
  rw [if_neg h0, hm, hc]
  show V1.mkFactor p.1 info effs p.2 ∈
    (if V1.hasExpEffect effs ∧ info.kind = Kind.good
      then [V1.mkFactor p.1 info effs p.2] else [])
  rw [if_pos ⟨hexp, hgood⟩]
  exact List.mem_singleton.mpr rfl

theorem v1FactorsOf_neg_intro {p : String × ℚ} (h0 : p.2 ≠ 0)
    {effs : List (V1.Metric × V1.Effect)} {info : HabitInfo}
    (hm : V1.matrixFind p.1 = some effs) (hc : catalogFind p.1 = some info)
    (hexp : V1.hasExpEffect effs) (hbad : info.kind = .bad) :
    V1.mkFactor p.1 info effs p.2 ∈ (v1FactorsOf p).2 := by
  unfold v1FactorsOf
  rw [if_neg h0, hm, hc]
  show V1.mkFactor p.1 info effs p.2 ∈
    (if V1.hasExpEffect effs ∧ info.kind = Kind.bad
      then [V1.mkFactor p.1 info effs p.2] else [])
  rw [if_pos ⟨hexp, hbad⟩]
  exact List.mem_singleton.mpr rfl

theorem totalImpact_eq_sum (effs : List (V1.Metric × V1.Effect)) (l : ℚ) :
    V1.totalImpact effs l
      = (effs.map fun me =>
          if me.2.etype = V1.EffectType.exponential
          then |(me.2.multiplier : ℝ) * Real.rpow (l : ℝ) ((me.2.curve.getD 2 : ℚ) : ℝ)|
          else 0).sum := by
  unfold V1.totalImpact
  have key : ∀ s : ℝ,
      effs.foldl
        (fun s2 me =>
          if me.2.etype = V1.EffectType.exponential then
            s2 + |(me.2.multiplier : ℝ) * Real.rpow (l : ℝ) ((me.2.curve.getD 2 : ℚ) : ℝ)|
          else s2) s
        = s + (effs.map fun me =>
            if me.2.etype = V1.EffectType.exponential
            then |(me.2.multiplier : ℝ) * Real.rpow (l : ℝ) ((me.2.curve.getD 2 : ℚ) : ℝ)|
            else 0).sum := by
    induction effs with
    | nil => intro s; simp
    | cons me rest ih =>
      intro s
      rw [List.foldl_cons, ih]
      by_cases he : me.2.etype = V1.EffectType.exponential <;>
        simp [he] <;> ring
  simpa using key 0

/-- C2: a selected habit (level > 0, unique keys, known to the Impact Model
and the catalog) is listed among the dominant factors exactly when it has
at least one exponential descriptor with `|magnitude| > 3.0`; a listed
habit's bucket matches its catalog valence (positive ↔ beneficial,
negative ↔ harmful) — not the sign of its deltas; and its reported
aggregate impact is the sum of `|magnitude × level^curveExponent|` over its
exponential descriptors only. -/
theorem claim_C2_dominant_factors (sel : Selection)
    (hnd : (sel.map Prod.fst).Nodup)
    (h : String) (l : ℚ) (hmem : (h, l) ∈ sel) (hl : 0 < l)
    (effs : List (V1.Metric × V1.Effect)) (heffs : V1.matrixFind h = some effs)
    (info : HabitInfo) (hinfo : catalogFind h = some info) :
    ((V1.mkFactor h info effs l ∈ (V1.core sel).pos ∨
        V1.mkFactor h info effs l ∈ (V1.core sel).neg) ↔
      ∃ me ∈ effs, me.2.etype = V1.EffectType.exponential ∧ (3 : ℚ) < |me.2.multiplier|) ∧
    (V1.mkFactor h info effs l ∈ (V1.core sel).pos → info.kind = Kind.good) ∧
    (V1.mkFactor h info effs l ∈ (V1.core sel).neg → info.kind = Kind.bad) ∧
    (V1.mkFactor h info effs l).impact
      = (effs.map fun me =>
          if me.2.etype = V1.EffectType.exponential
          then |(me.2.multiplier : ℝ) * Real.rpow (l : ℝ) ((me.2.curve.getD 2 : ℚ) : ℝ)|
          else 0).sum := by
  have hname : info.name = h := catalogFind_name hinfo
  have hl0 : l ≠ 0 := ne_of_gt hl
  -- decompose a positive-bucket membership back to this habit's entry
  have decompose_pos : V1.mkFactor h info effs l ∈ (V1.core sel).pos →
      V1.hasExpEffect effs ∧ info.kind = Kind.good := by
    intro hf
    obtain ⟨p, hp, hfp⟩ := mem_core_pos.mp hf
    obtain ⟨h0, effs2, info2, hm2, hc2, hexp2, hgood2, heq2⟩ := mem_v1FactorsOf_pos hfp
    have hn2 : info2.name = p.1 := catalogFind_name hc2
    have hph : p.1 = h := by
      have : info.name = info2.name := congrArg Factor.habit heq2
      rw [hname, hn2] at this
      exact this.symm
    rw [hph] at hm2 hc2
    rw [heffs] at hm2
    rw [hinfo] at hc2
    cases hm2
    cases hc2
    exact ⟨hexp2, hgood2⟩
  have decompose_neg : V1.mkFactor h info effs l ∈ (V1.core sel).neg →
      V1.hasExpEffect effs ∧ info.kind = Kind.bad := by
    intro hf
    obtain ⟨p, hp, hfp⟩ := mem_core_neg.mp hf
    obtain ⟨h0, effs2, info2, hm2, hc2, hexp2, hbad2, heq2⟩ := mem_v1FactorsOf_neg hfp
    have hn2 : info2.name = p.1 := catalogFind_name hc2
    have hph : p.1 = h := by
      have : info.name = info2.name := congrArg Factor.habit heq2
      rw [hname, hn2] at this
      exact this.symm
    rw [hph] at hm2 hc2
    rw [heffs] at hm2
    rw [hinfo] at hc2
    cases hm2
    cases hc2
    exact ⟨hexp2, hbad2⟩
  refine ⟨⟨?_, ?_⟩, fun hf => (decompose_pos hf).2, fun hf => (decompose_neg hf).2,
    totalImpact_eq_sum effs l⟩
  · rintro (hf | hf)
    · exact (decompose_pos hf).1
    · exact (decompose_neg hf).1
  · intro hexp
    have hexp2 : V1.hasExpEffect effs := hexp
    cases hkind : info.kind with
    | good =>
      left
      exact mem_core_pos.mpr ⟨(h, l), hmem, v1FactorsOf_pos_intro hl0 heffs hinfo hexp2 hkind⟩
    | bad =>
      right
      exact mem_core_neg.mpr ⟨(h, l), hmem, v1FactorsOf_neg_intro hl0 heffs hinfo hexp2 hkind⟩

/-- Witness for C2 at the concrete selection `{sleep_consistency: 1}`. -/
theorem claim_C2_witness :
    (([(("sleep_consistency" : String), (1 : ℚ))].map Prod.fst).Nodup) ∧
    (("sleep_consistency", (1 : ℚ)) ∈ [(("sleep_consistency" : String), (1 : ℚ))]) ∧
    ((0 : ℚ) < 1) ∧
    (V1.matrixFind "sleep_consistency"
      = some ((V1.matrixFind "sleep_consistency").getD [])) ∧
    (catalogFind "sleep_consistency"
      = some ((catalogFind "sleep_consistency").getD ⟨"", Kind.good⟩)) ∧
    ((V1.mkFactor "sleep_consistency"
          ((catalogFind "sleep_consistency").getD ⟨"", Kind.good⟩)
          ((V1.matrixFind "sleep_consistency").getD []) 1
        ∈ (V1.core [(("sleep_consistency" : String), (1 : ℚ))]).pos ∨
      V1.mkFactor "sleep_consistency"
          ((catalogFind "sleep_consistency").getD ⟨"", Kind.good⟩)
          ((V1.matrixFind "sleep_consistency").getD []) 1
        ∈ (V1.core [(("sleep_consistency" : String), (1 : ℚ))]).neg) ↔
      ∃ me ∈ (V1.matrixFind "sleep_consistency").getD [],
        me.2.etype = V1.EffectType.exponential ∧ (3 : ℚ) < |me.2.multiplier|) :=
  ⟨by decide, by decide, by decide,
    by simp [V1.matrixFind, V1.HABIT_IMPACT_MATRIX, lookupA],
    by simp [catalogFind, habitsData, mkHabit, lookupA],
    (claim_C2_dominant_factors _ (by decide) _ _ (by decide) (by decide) _
      (by simp [V1.matrixFind, V1.HABIT_IMPACT_MATRIX, lookupA]) _
      (by simp [catalogFind, habitsData, mkHabit, lookupA])).1⟩

/-- The `social_connection` row of the Impact Model. -/
def socEffs : List (V1.Metric × V1.Effect) :=
  [ (.mentalHealth, V1.eExp 4.0 1.9), (.happiness, V1.eExp 4.2 2.0)
  , (.generalHealth, V1.eLin 2.5), (.qualityOfLife, V1.eExp 3.8 1.8)
  , (.physicalFitness, V1.eMin 0.3), (.lifeExpectancy, V1.eLin 3.0) ]

/-- The `sleep_consistency` row of the Impact Model. -/
def sleepEffs : List (V1.Metric × V1.Effect) :=
  [ (.generalHealth, V1.eExp 4.2 2.0), (.mentalHealth, V1.eExp 4.5 2.1)
  , (.qualityOfLife, V1.eLin 2.8), (.physicalFitness, V1.eMin 0.8)
  , (.happiness, V1.eExp 3.8 1.8), (.lifeExpectancy, V1.eExp 3.5 1.9) ]

theorem matrixFind_soc : V1.matrixFind "social_connection" = some socEffs := by
  simp [V1.matrixFind, V1.HABIT_IMPACT_MATRIX, lookupA, socEffs]

theorem matrixFind_sleep : V1.matrixFind "sleep_consistency" = some sleepEffs := by
  simp [V1.matrixFind, V1.HABIT_IMPACT_MATRIX, lookupA, sleepEffs]

theorem catalogFind_soc :
    catalogFind "social_connection" = some ⟨"social_connection", Kind.good⟩ := by
  simp [catalogFind, habitsData, mkHabit, lookupA]

theorem catalogFind_sleep :
    catalogFind "sleep_consistency" = some ⟨"sleep_consistency", Kind.good⟩ := by
  simp [catalogFind, habitsData, mkHabit, lookupA]

theorem socEffs_hasExp : V1.hasExpEffect socEffs :=
  ⟨((.mentalHealth : V1.Metric), V1.eExp 4.0 1.9), by simp [socEffs], rfl, by
    show (3 : ℚ) < |(4.0 : ℚ)|
    rw [abs_of_pos (by norm_num)]
    norm_num⟩

theorem sleepEffs_hasExp : V1.hasExpEffect sleepEffs :=
  ⟨((.generalHealth : V1.Metric), V1.eExp 4.2 2.0), by simp [sleepEffs], rfl, by
    show (3 : ℚ) < |(4.2 : ℚ)|
    rw [abs_of_pos (by norm_num)]
    norm_num⟩

theorem factorsOf_soc :
    (v1FactorsOf ("social_connection", 1)).1
      = [V1.mkFactor "social_connection" ⟨"social_connection", Kind.good⟩ socEffs 1] := by
  unfold v1FactorsOf
  rw [if_neg (by norm_num : ¬(("social_connection", (1 : ℚ)).2 = 0))]
  simp only [matrixFind_soc, catalogFind_soc]
  rw [if_pos ⟨socEffs_hasExp, trivial⟩]

theorem factorsOf_sleep :
    (v1FactorsOf ("sleep_consistency", 1)).1
      = [V1.mkFactor "sleep_consistency" ⟨"sleep_consistency", Kind.good⟩ sleepEffs 1] := by
  unfold v1FactorsOf
  rw [if_neg (by norm_num : ¬(("sleep_consistency", (1 : ℚ)).2 = 0))]
  simp only [matrixFind_sleep, catalogFind_sleep]
  rw [if_pos ⟨sleepEffs_hasExp, trivial⟩]

theorem etype_lin_ne : V1.EffectType.linear ≠ V1.EffectType.exponential := by decide

theorem etype_min_ne : V1.EffectType.minimal ≠ V1.EffectType.exponential := by decide

theorem totalImpact_soc_one : V1.totalImpact socEffs 1 = 12 := by
  rw [totalImpact_eq_sum]
  simp only [socEffs, V1.eExp, V1.eLin, V1.eMin, List.map_cons, List.map_nil,
    List.sum_cons, List.sum_nil, if_neg etype_lin_ne, if_neg etype_min_ne, if_pos rfl]
  norm_num [Real.one_rpow, abs_mul, abs_of_pos]

theorem totalImpact_sleep_one : V1.totalImpact sleepEffs 1 = 16 := by
  rw [totalImpact_eq_sum]
  simp only [sleepEffs, V1.eExp, V1.eLin, V1.eMin, List.map_cons, List.map_nil,
    List.sum_cons, List.sum_nil, if_neg etype_lin_ne, if_neg etype_min_ne, if_pos rfl]
  norm_num [Real.one_rpow, abs_mul, abs_of_pos]

/-- C5 (counterexample): the `V1` engine (`part_000`, first variant) pushes
dominant factors in selection-iteration order and never sorts them: for the
selection `{social_connection: 1, sleep_consistency: 1}` (in that object
order) the positive list carries impacts `[12, 16]` — not descending. -/
theorem claim_C5_counterexample :
    ¬ List.Sorted (fun a b : Factor => b.impact ≤ a.impact)
      (V1.core [(("social_connection" : String), (1 : ℚ)),
                (("sleep_consistency" : String), (1 : ℚ))]).pos := by
  intro hs
  have hpos : (V1.core [(("social_connection" : String), (1 : ℚ)),
                (("sleep_consistency" : String), (1 : ℚ))]).pos
      = [V1.mkFactor "social_connection" ⟨"social_connection", Kind.good⟩ socEffs 1,
         V1.mkFactor "sleep_consistency" ⟨"sleep_consistency", Kind.good⟩ sleepEffs 1] := by
    rw [core_pos]
    simp only [List.map_cons, List.map_nil, factorsOf_soc, factorsOf_sleep,
      List.flatten_cons, List.flatten_nil, List.append_nil, List.singleton_append]
  rw [hpos] at hs
  have hrel := (List.sorted_cons.mp hs).1 _ (List.mem_cons_self _ _)
  have h1 : (V1.mkFactor "social_connection" ⟨"social_connection", Kind.good⟩ socEffs 1).impact
      = 12 := totalImpact_soc_one
  have h2 : (V1.mkFactor "sleep_consistency" ⟨"sleep_consistency", Kind.good⟩ sleepEffs 1).impact
      = 16 := totalImpact_sleep_one
  rw [h1, h2] at hrel
  norm_num at hrel

/-- C5 (amended): the `part_001` variant does sort each dominant-factor
bucket descending by impact (`sort((a, b) => b.impact - a.impact)`); the
`part_000` first variant returns the buckets in selection-iteration order,
unsorted. -/
theorem claim_C5_amended_sorted (sel : Selection) :
    List.Sorted (fun a b : Factor => b.impact ≤ a.impact) (P1.positiveFactors sel) ∧
    List.Sorted (fun a b : Factor => b.impact ≤ a.impact) (P1.negativeFactors sel) := by
  letI : IsTotal Factor (fun a b : Factor => b.impact ≤ a.impact) :=
    ⟨fun a b => le_total b.impact a.impact⟩
  letI : IsTrans Factor (fun a b : Factor => b.impact ≤ a.impact) :=
    ⟨fun a b c hab hbc => le_trans hbc hab⟩
  constructor
  · show List.Sorted _ (List.insertionSort _ (P1.core sel).pos)
    exact List.sorted_insertionSort _ _
  · show List.Sorted _ (List.insertionSort _ (P1.core sel).neg)
    exact List.sorted_insertionSort _ _

/-- The `healthy_diet` row of the Impact Model. -/
def dietEffs : List (V1.Metric × V1.Effect) :=
  [ (.generalHealth, V1.eExp 3.8 1.7), (.physicalFitness, V1.eLin 2.8)
  , (.mentalHealth, V1.eLin 2.2), (.qualityOfLife, V1.eLin 3.0)
  , (.happiness, V1.eLin 2.0), (.lifeExpectancy, V1.eLin 3.2) ]

theorem matrixFind_diet : V1.matrixFind "healthy_diet" = some dietEffs := by
  simp [V1.matrixFind, V1.HABIT_IMPACT_MATRIX, lookupA, dietEffs]

theorem catalogFind_diet :
    catalogFind "healthy_diet" = some ⟨"healthy_diet", Kind.good⟩ := by
  simp [catalogFind, habitsData, mkHabit, lookupA]

theorem m_pf_ne_gh : V1.Metric.physicalFitness ≠ V1.Metric.generalHealth := by decide

theorem m_mh_ne_gh : V1.Metric.mentalHealth ≠ V1.Metric.generalHealth := by decide

theorem m_qol_ne_gh : V1.Metric.qualityOfLife ≠ V1.Metric.generalHealth := by decide

theorem m_hap_ne_gh : V1.Metric.happiness ≠ V1.Metric.generalHealth := by decide

theorem m_le_ne_gh : V1.Metric.lifeExpectancy ≠ V1.Metric.generalHealth := by decide

theorem codeDelta_diet_gh :
    codeDelta ("healthy_diet", 1) V1.Metric.generalHealth = 3.8 := by
  unfold codeDelta
  rw [if_neg (by norm_num : ¬(("healthy_diet", (1 : ℚ)).2 = 0))]
  simp only [matrixFind_diet, catalogFind_diet]
  show metricSum dietEffs 1 V1.Metric.generalHealth = 3.8
  unfold metricSum
  simp only [dietEffs, V1.eExp, V1.eLin, V1.eMin, List.map_cons, List.map_nil,
    List.sum_cons, List.sum_nil, if_pos rfl, if_neg m_pf_ne_gh, if_neg m_mh_ne_gh,
    if_neg m_qol_ne_gh, if_neg m_hap_ne_gh, if_neg m_le_ne_gh]
  norm_num [V1.effectValue, Real.one_rpow]

theorem V1_gh_empty : V1.clampedMetrics [] V1.Metric.generalHealth = 50 := by
  show clamp _ _ _ = _
  rw [clamp_of_mem] <;> norm_num [V1.core, V1.BASELINE_VALUES, List.foldl_nil]

theorem V1_gh_diet :
    V1.clampedMetrics [(("healthy_diet" : String), (1 : ℚ))] V1.Metric.generalHealth
      = 53.8 := by
  have hcv : (V1.core [(("healthy_diet" : String), (1 : ℚ))]).vals V1.Metric.generalHealth
      = 53.8 := by
    rw [core_vals]
    simp only [List.map_cons, List.map_nil, List.sum_cons, List.sum_nil, codeDelta_diet_gh]
    norm_num [V1.BASELINE_VALUES]
  show clamp _ _ _ = _
  rw [hcv, clamp_of_mem] <;> norm_num

/-- C6 (counterexample): in the `part_000` first-variant organ loop, the
skin value changes under `{healthy_diet: 1}` although no habit in any of
that loop's organ tables is selected (its tables only mention smoking,
alcohol, drugs and exercise): the loop starts every organ from the
engine's computed `generalHealth` rather than from a per-organ baseline,
so an unmentioned organ does not retain its baseline. -/
theorem claim_C6_counterexample :
    V1.organHealth [(("healthy_diet" : String), (1 : ℚ))] Organ.skin
      ≠ V1.organHealth [] Organ.skin := by
  have hbase1 : V1.organBase [(("healthy_diet" : String), (1 : ℚ))] Organ.skin
      = V1.clampedMetrics [(("healthy_diet" : String), (1 : ℚ))] V1.Metric.generalHealth := rfl
  have hbase0 : V1.organBase [] Organ.skin
      = V1.clampedMetrics [] V1.Metric.generalHealth := rfl
  have h1 : V1.organHealth [(("healthy_diet" : String), (1 : ℚ))] Organ.skin = 53.8 := by
    unfold V1.organHealth
    rw [hbase1, V1_gh_diet, clamp_of_mem] <;> norm_num
  have h0 : V1.organHealth [] Organ.skin = 50 := by
    unfold V1.organHealth
    rw [hbase0, V1_gh_empty, clamp_of_mem] <;> norm_num
  rw [h1, h0]
  norm_num

/-- C6 (amended): in the `part_000` second-variant organ loop (the one the
current store uses), each organ starts from its own `BASELINE_ORGAN_HEALTH`
entry (decoupled from the whole-body metrics), is adjusted by
`weight × level^1.6 × 3` per selected habit in its vulnerability table, and
is clamped to `[15, 100]`; an organ none of whose table habits is selected
retains exactly its declared baseline. -/
theorem claim_C6_amended_organ_retention (sel : Selection) (o : Organ)
    (hno : ∀ p ∈ sel, p.2 ≠ 0 → lookupA (V2.organVulnerabilities o) p.1 = none) :
    V2.organHealth sel o = ((V2.BASELINE_ORGAN_HEALTH o : ℚ) : ℝ) := by
  have hfold : ∀ (v : ℝ), sel.foldl (V2.organStep o) v = v := by
    induction sel with
    | nil => intro v; rfl
    | cons p rest ih =>
      intro v
      rw [List.foldl_cons]
      have hstep : V2.organStep o v p = v := by
        unfold V2.organStep
        by_cases h0 : p.2 = 0
        · rw [if_pos h0]
        · rw [if_neg h0]
          rw [hno p (List.mem_cons_self _ _) h0]
      rw [hstep]
      exact ih (fun q hq => hno q (List.mem_cons_of_mem _ hq)) v
  unfold V2.organHealth
  rw [hfold]
  have hb1 : (15 : ℝ) ≤ ((V2.BASELINE_ORGAN_HEALTH o : ℚ) : ℝ) := by
    cases o <;> norm_num [V2.BASELINE_ORGAN_HEALTH]
  have hb2 : ((V2.BASELINE_ORGAN_HEALTH o : ℚ) : ℝ) ≤ 100 := by
    cases o <;> norm_num [V2.BASELINE_ORGAN_HEALTH]
  exact clamp_of_mem hb1 hb2

/-- Witness for C6 (amended) at the selection `{reading: 2}` and the lungs
(whose vulnerability table mentions only smoking, exercise and chronic
stress). -/
theorem claim_C6_amended_witness :
    (∀ p ∈ [(("reading" : String), (2 : ℚ))], p.2 ≠ 0 →
      lookupA (V2.organVulnerabilities Organ.lungs) p.1 = none) ∧
    V2.organHealth [(("reading" : String), (2 : ℚ))] Organ.lungs
      = ((V2.BASELINE_ORGAN_HEALTH Organ.lungs : ℚ) : ℝ) :=
  ⟨by decide, claim_C6_amended_organ_retention _ _ (by decide)⟩

theorem crit_mem {sel : Selection} {h : String}
    (hmem : h ∈ ["chronic_stress", "drugs", "smoking", "alcohol"])
    (hl : 0 < getLevel sel h) : V2.critRecOf h ∈ V2.critList sel := by
  unfold V2.critList
  rw [foldl_optrec (fun x => 0 < getLevel sel x) V2.critRecOf
    ["chronic_stress", "drugs", "smoking", "alcohol"] []]
  rw [List.nil_append]
  apply List.mem_flatten.mpr
  refine ⟨[V2.critRecOf h], ?_, List.mem_singleton.mpr rfl⟩
  apply List.mem_map.mpr
  exact ⟨h, hmem, by rw [if_pos hl]⟩

theorem crit_length (sel : Selection) : (V2.critList sel).length ≤ 4 := by
  unfold V2.critList
  rw [foldl_optrec (fun x => 0 < getLevel sel x) V2.critRecOf
    ["chronic_stress", "drugs", "smoking", "alcohol"] []]
  rw [List.nil_append]
  exact flatten_singletons_length _ _ _

theorem highList_prefix (sel : Selection) :
    ∃ t, V2.highList sel = V2.critList sel ++ t := by
  unfold V2.highList
  rw [foldl_optrec (fun x => getLevel sel x < 2) V2.highRecOf
    ["sleep_consistency", "exercise", "healthy_diet"] (V2.critList sel)]
  exact ⟨_, rfl⟩

theorem modList_prefix (sel : Selection) :
    ∃ t, V2.modList sel = V2.critList sel ++ t := by
  obtain ⟨t1, ht1⟩ := highList_prefix sel
  unfold V2.modList
  by_cases hc : (V2.highList sel).length < 5
  · rw [if_pos hc]
    rw [foldl_optrec (fun x => getLevel sel x < 3) V2.modRecOf
      ["social_connection", "hydration", "meditation"] (V2.highList sel)]
    rw [ht1, List.append_assoc]
    exact ⟨_, rfl⟩
  · rw [if_neg hc, ht1]
    exact ⟨t1, rfl⟩

/-- C7 (counterexample): on the `part_000` first-variant ranker
(`generateRealisticRecommendations`), the selection `{alcohol: 3}` — a
critical-set habit at level ≥ 1 per the claim — produces no critical
recommendation at all: that variant's critical set omits alcohol and uses
the stricter `level > 1` threshold. -/
theorem claim_C7_counterexample :
    (V1.generateRealisticRecommendations [(("alcohol" : String), (3 : ℚ))]).countP
      (fun r => decide (r.priority = Priority.critical)) = 0 := by decide

/-- C7 (amended): on the `part_000` second-variant ranker
(`generatePrioritizedRecommendations`), every habit of the fixed critical
set {chronic_stress, drugs, smoking, alcohol} whose level is ≥ 1 yields one
critical-priority "reduce this habit" recommendation in the output (the
critical block runs first and its at most 4 entries survive the
`slice(0, 5)` cap); the first variant instead uses the smaller set
{chronic_stress, drugs, smoking} and the stricter threshold `level > 1`. -/
theorem claim_C7_amended_critical_recs (sel : Selection) (h : String)
    (hmem : h ∈ ["chronic_stress", "drugs", "smoking", "alcohol"])
    (hlvl : 1 ≤ getLevel sel h) :
    V2.critRecOf h ∈ V2.generatePrioritizedRecommendations sel := by
  have h0 : 0 < getLevel sel h := lt_of_lt_of_le one_pos hlvl
  have hmemc := crit_mem hmem h0
  obtain ⟨t, ht⟩ := modList_prefix sel
  unfold V2.generatePrioritizedRecommendations
  rw [ht, List.take_append_eq_append_take]
  apply List.mem_append_left
  rw [List.take_of_length_le (le_trans (crit_length sel) (by norm_num))]
  exact hmemc

/-- Witness for C7 (amended) at the concrete selection `{alcohol: 2}`. -/
theorem claim_C7_amended_witness :
    ("alcohol" ∈ ["chronic_stress", "drugs", "smoking", "alcohol"]) ∧
    (1 ≤ getLevel [(("alcohol" : String), (2 : ℚ))] "alcohol") ∧
    V2.critRecOf "alcohol"
      ∈ V2.generatePrioritizedRecommendations [(("alcohol" : String), (2 : ℚ))] :=
  ⟨by decide, by decide,
    claim_C7_amended_critical_recs _ _ (by decide) (by decide)⟩

/-- C10: the meters object the store exposes assigns `happiness` and
`mentalHealth` the very same value (`riskAssessment.mentalHealth` of the
`V2` engine result), so the Impact Model's separate happiness descriptors
never influence the exposed happiness value. -/
theorem claim_C10_happiness_eq_mentalHealth (habits : Selection) (rng : ℕ → ℝ) :
    (Store.calculateMeters habits rng).happiness
      = (Store.calculateMeters habits rng).mentalHealth := rfl
